import Mathlib

/-!
Verification of the session-orchestration engine of the lookfor customer-support
multi-agent system: a shallow embedding of the MemoryStore, Orchestrator
(escalation detection and routing), resilience layer (retry, circuit breaker),
ToolClient validation, and the Runtime message pipeline, followed by theorems
settling the specification claims.

Conventions of the embedding:
* JavaScript timestamps (`Date.now()`, ISO strings) are modelled as integers
  passed explicitly (`now` parameters) where the source reads the clock.
* JavaScript numbers are modelled as `ℚ` (routing scores, retry delays) or as
  `Int`/`Nat` where the source only ever holds integers (timestamps, counters).
* Methods that `throw` are modelled with `Except String`.
* The tracer is write-only observability and is not modelled; the runtime
  pipeline instead records which processing steps ran (`RtStep`) so that
  "never invokes routing / the agent executor" is expressible.
* The LLM-driven `AgentExecutor.execute` is an external capability (network
  I/O); the runtime model takes it as an opaque function parameter.
-/

namespace MAS

/-- JavaScript runtime values, as far as the tool-parameter validator inspects
them (`typeof` string/number/boolean, `Array.isArray`, non-null object). -/
inductive JValue where
  | vStr : String → JValue
  | vNum : ℚ → JValue
  | vBool : Bool → JValue
  | vArr : List JValue → JValue
  | vObj : List (String × JValue) → JValue
  | vNull : JValue

/-- Substring test on character lists: does `pat` occur contiguously in `hay`?
Models JavaScript `String.prototype.includes`. -/
def prefixMatch : List Char → List Char → Bool
  | [], _ => true
  | _ :: _, [] => false
  | p :: ps, c :: cs => p == c && prefixMatch ps cs

/-- Scan every suffix of `hay` for `pat` as a prefix. -/
def subMatch (pat : List Char) : List Char → Bool
  | [] => prefixMatch pat []
  | c :: cs => prefixMatch pat (c :: cs) || subMatch pat cs

/-- The test `strIncludes s pat` models the JavaScript expression `s.includes(pat)`. -/
def strIncludes (s pat : String) : Bool := subMatch pat.data s.data

/-- Lower-casing via the character map: models `String.prototype.toLowerCase`
on the ASCII data this system handles, written over the character list so
that concrete instances evaluate. -/
def strLower (s : String) : String := String.mk (s.data.map Char.toLower)

/-- Split on one separator character keeping empty segments: the behaviour of
JavaScript `String.prototype.split` with a single-character separator. -/
def splitChar (sep : Char) : List Char → List (List Char)
  | [] => [[]]
  | c :: rest =>
    let r := splitChar sep rest
    if c == sep then [] :: r
    else
      match r with
      | [] => [[c]]
      | h :: t => (c :: h) :: t

/-- String-level wrapper of `splitChar`. -/
def strSplit (sep : Char) (s : String) : List String :=
  (splitChar sep s.data).map String.mk

/-- Models `Array.prototype.join` with a separator. -/
def joinSep (sep : String) : List String → String
  | [] => ""
  | [x] => x
  | x :: rest => x ++ sep ++ joinSep sep rest

/-- Message author role: customer, agent, or system. -/
inductive Role where
  | customer
  | agent
  | sys
deriving DecidableEq

/-- One conversation message (src/mas/memory `Message`); `metadata` is never
read by the core and is omitted. -/
structure Message where
  role : Role
  content : String
  timestamp : Int
deriving DecidableEq

/-- Result payload of a tool call as recorded in memory. -/
structure ToolResult where
  success : Bool
  data : Option JValue
  error : Option String

/-- One recorded tool call (src/mas/memory `ToolCall`). -/
structure ToolCallRec where
  toolHandle : String
  params : List (String × JValue)
  result : ToolResult
  timestamp : Int

/-- Preview entry of the escalation summary (`conversation_summary` items). -/
structure MessagePreview where
  role : Role
  preview : String
deriving DecidableEq

/-- Tool-call digest inside the escalation summary (`tool_calls` items). -/
structure ToolCallDigest where
  tool : String
  success : Bool
deriving DecidableEq

/-- The record built by `Orchestrator.buildEscalationSummary`. -/
structure EscalationSummary where
  sessionId : String
  customerEmail : String
  customerName : String
  shopifyId : String
  issueType : String
  messageCount : Nat
  toolCalls : List ToolCallDigest
  mentionedOrders : List String
  attemptedResolution : String
  conversationSummary : List MessagePreview
deriving DecidableEq

/-- Session lifecycle status. -/
inductive SessionStatus where
  | active
  | escalated
  | resolved
deriving DecidableEq

/-- Derived/cached per-session state (src/mas/memory `SessionContext`). -/
structure SessionContext where
  orderHistory : Option (List JValue) := none
  subscriptionStatus : Option JValue := none
  currentOrder : Option JValue := none
  mentionedOrderNumbers : List String := []
  mentionedProducts : List String := []
  currentAgent : String := ""
  previousAgents : List String := []
  intentHistory : List String := []
  escalated : Bool := false
  escalationReason : Option String := none
  escalationSummary : Option EscalationSummary := none

/-- One customer conversation (src/mas/memory `Session`). -/
structure Session where
  id : String
  customerId : String
  customerEmail : String
  customerFirstName : String
  customerLastName : String
  shopifyCustomerId : String
  startedAt : Int
  lastActivity : Int
  status : SessionStatus
  messages : List Message
  toolCalls : List ToolCallRec
  context : SessionContext

/-- The in-memory session store: `Map<string, Session>` as an association
list in insertion order. -/
def MemoryStore := List (String × Session)

/-- Map lookup, `this.sessions.get(sessionId)`. -/
def MemoryStore.getSession (store : MemoryStore) (sessionId : String) : Option Session :=
  List.lookup sessionId store

/-- Map write for an existing key: replace the stored session in place. -/
def MemoryStore.setSession (store : MemoryStore) (sessionId : String) (sess : Session) :
    MemoryStore :=
  List.map (fun p => if p.1 = sessionId then (sessionId, sess) else p) store

/-! Entity extraction (`MemoryStore.extractEntities`): the regex
`/#\d{4,10}|#NP\d{4,10}|NP\d{4,10}/gi` scanned globally over the message,
alternatives tried left to right at each position, `\d{4,10}` greedy. -/

/-- Take a greedy run of up to `cap` digit characters. -/
def takeDigits : Nat → List Char → List Char × List Char
  | 0, l => ([], l)
  | _ + 1, [] => ([], [])
  | cap + 1, c :: rest =>
    if c.isDigit then
      let (ds, r) := takeDigits cap rest
      (c :: ds, r)
    else ([], c :: rest)

/-- Case-insensitive match of one regex letter (the `i` flag). -/
def charCI (c lo hi : Char) : Bool := c == lo || c == hi

/-- Try the three regex alternatives at the current position; on success return
the matched characters and the remaining input. -/
def tryOrderMatch : List Char → Option (List Char × List Char)
  | [] => none
  | c :: rest =>
    if c == '#' then
      -- alternative 1: `#\d{4,10}`
      let (ds, r) := takeDigits 10 rest
      if 4 ≤ ds.length then some ('#' :: ds, r)
      else
        -- alternative 2: `#NP\d{4,10}`
        match rest with
        | n :: p :: rest2 =>
          if charCI n 'N' 'n' && charCI p 'P' 'p' then
            let (ds2, r2) := takeDigits 10 rest2
            if 4 ≤ ds2.length then some ('#' :: n :: p :: ds2, r2) else none
          else none
        | _ => none
    else
      -- alternative 3: `NP\d{4,10}`
      match c :: rest with
      | n :: p :: rest2 =>
        if charCI n 'N' 'n' && charCI p 'P' 'p' then
          let (ds2, r2) := takeDigits 10 rest2
          if 4 ≤ ds2.length then some (n :: p :: ds2, r2) else none
        else none
      | _ => none

theorem takeDigits_append (cap : Nat) (l : List Char) :
    (takeDigits cap l).1 ++ (takeDigits cap l).2 = l := by
  induction cap generalizing l with
  | zero => simp [takeDigits]
  | succ n ih =>
    cases l with
    | nil => simp [takeDigits]
    | cons c rest =>
      by_cases h : c.isDigit
      · simpa [takeDigits, h] using ih rest
      · simp [takeDigits, h]

theorem takeDigits_rest_le (cap : Nat) (l : List Char) :
    (takeDigits cap l).2.length ≤ l.length := by
  conv_rhs => rw [← takeDigits_append cap l]
  simp

theorem tryOrderMatch_rest_lt (l : List Char) (m r : List Char)
    (h : tryOrderMatch l = some (m, r)) : r.length < l.length := by
  match l with
  | [] => simp [tryOrderMatch] at h
  | c :: rest =>
    by_cases hc : c == '#'
    · simp only [tryOrderMatch, hc, if_pos] at h
      by_cases h4 : 4 ≤ (takeDigits 10 rest).1.length
      · simp only [h4, if_pos] at h
        have hr : r = (takeDigits 10 rest).2 := by
          cases h; rfl
        have := takeDigits_rest_le 10 rest
        subst hr
        have h1 : (takeDigits 10 rest).1.length + (takeDigits 10 rest).2.length
            = rest.length := by
          conv_rhs => rw [← takeDigits_append 10 rest]
          simp
        simp only [List.length_cons]
        omega
      · simp only [h4, if_neg, if_false] at h
        match rest with
        | [] => simp at h
        | [x] => simp at h
        | n :: p :: rest2 =>
          by_cases hnp : charCI n 'N' 'n' && charCI p 'P' 'p'
          · simp only [hnp, if_pos] at h
            by_cases h42 : 4 ≤ (takeDigits 10 rest2).1.length
            · simp only [h42, if_pos] at h
              have hr : r = (takeDigits 10 rest2).2 := by cases h; rfl
              have := takeDigits_rest_le 10 rest2
              subst hr
              simp only [List.length_cons]
              omega
            · simp [h42] at h
          · simp [hnp] at h
    · simp only [tryOrderMatch, hc, if_neg, if_false] at h
      match rest with
      | [] => simp at h
      | p :: rest2 =>
        by_cases hnp : charCI c 'N' 'n' && charCI p 'P' 'p'
        · simp only [hnp, if_pos] at h
          by_cases h42 : 4 ≤ (takeDigits 10 rest2).1.length
          · simp only [h42, if_pos] at h
            have hr : r = (takeDigits 10 rest2).2 := by cases h; rfl
            have := takeDigits_rest_le 10 rest2
            subst hr
            simp only [List.length_cons]
            omega
          · simp [h42] at h
        · simp [hnp] at h

/-- Global scan (`content.match(...)` with the `g` flag): collect successive
non-overlapping matches left to right. -/
def scanOrders : List Char → List String
  | [] => []
  | c :: rest =>
    match h : tryOrderMatch (c :: rest) with
    | some (m, r) =>
      have : r.length < (c :: rest).length := tryOrderMatch_rest_lt _ _ _ h
      String.mk m :: scanOrders r
    | none => scanOrders rest
termination_by l => l.length

/-- Normalisation computed (but, notably, not stored) by `extractEntities`. -/
def normalizeOrder (m : String) : String :=
  match m.data with
  | c :: _ => if c = '#' then m else "#" ++ m
  | [] => "#" ++ m

/-- Per-match update of `mentionedOrderNumbers`: push the raw match unless the
normalised or raw form is already recorded. -/
def addOrderMatch (l : List String) (m : String) : List String :=
  if l.contains (normalizeOrder m) || l.contains m then l else l ++ [m]

/-- The effect of `MemoryStore.extractEntities` restricted to its only effect: updating
`context.mentionedOrderNumbers`. -/
def extractEntitiesCtx (ctx : SessionContext) (content : String) : SessionContext :=
  { ctx with
    mentionedOrderNumbers :=
      (scanOrders content.data).foldl addOrderMatch ctx.mentionedOrderNumbers }

/-- Session-level effect of `MemoryStore.addMessage` once the session is found. -/
def Session.addMessage (sess : Session) (role : Role) (content : String) (now : Int) :
    Session :=
  let sess :=
    { sess with
      messages := sess.messages ++ [⟨role, content, now⟩]
      lastActivity := now }
  if role = Role.customer then
    { sess with context := extractEntitiesCtx sess.context content }
  else sess

/-- Models `MemoryStore.addMessage`: throws `Session not found` on an unknown id. -/
def MemoryStore.addMessage (store : MemoryStore) (sessionId : String) (role : Role)
    (content : String) (now : Int) : Except String MemoryStore :=
  match store.getSession sessionId with
  | none => .error ("Session not found: " ++ sessionId)
  | some sess => .ok (store.setSession sessionId (sess.addMessage role content now))

/-- Models `MemoryStore.cacheToolResult`: opportunistically cache structured data. -/
def cacheToolResult (ctx : SessionContext) (toolHandle : String) (result : ToolResult) :
    SessionContext :=
  if !result.success || result.data.isNone then ctx
  else
    let ctx :=
      if toolHandle = "shopify_get_customer_orders" then
        { ctx with
          orderHistory :=
            match result.data with
            | some (JValue.vObj fields) =>
              match List.lookup "orders" fields with
              | some (JValue.vArr l) => some l
              | _ => none
            | _ => none }
      else ctx
    let ctx :=
      if toolHandle = "skio_get_subscription_status" then
        { ctx with subscriptionStatus := result.data }
      else ctx
    if toolHandle = "shopify_get_order_details" then
      { ctx with currentOrder := result.data }
    else ctx

/-- Models `MemoryStore.recordToolCall`: throws on an unknown id, appends the audit
record and caches useful data. -/
def MemoryStore.recordToolCall (store : MemoryStore) (sessionId : String)
    (toolHandle : String) (params : List (String × JValue)) (result : ToolResult)
    (now : Int) : Except String MemoryStore :=
  match store.getSession sessionId with
  | none => .error ("Session not found: " ++ sessionId)
  | some sess =>
    .ok (store.setSession sessionId
      { sess with
        toolCalls := sess.toolCalls ++ [⟨toolHandle, params, result, now⟩]
        lastActivity := now
        context := cacheToolResult sess.context toolHandle result })

/-- Session-level effect of `MemoryStore.escalate`. -/
def Session.escalate (sess : Session) (reason : String) (summary : EscalationSummary)
    (now : Int) : Session :=
  { sess with
    status := .escalated
    lastActivity := now
    context :=
      { sess.context with
        escalated := true
        escalationReason := some reason
        escalationSummary := some summary } }

/-- Models `MemoryStore.escalate`: throws on an unknown id. -/
def MemoryStore.escalate (store : MemoryStore) (sessionId : String) (reason : String)
    (summary : EscalationSummary) (now : Int) : Except String MemoryStore :=
  match store.getSession sessionId with
  | none => .error ("Session not found: " ++ sessionId)
  | some sess => .ok (store.setSession sessionId (sess.escalate reason summary now))

/-- Models `MemoryStore.isEscalated`. -/
def MemoryStore.isEscalated (store : MemoryStore) (sessionId : String) : Bool :=
  match store.getSession sessionId with
  | none => false
  | some sess => sess.context.escalated

/-- Models `MemoryStore.setCurrentAgent`: silently returns on an unknown id. -/
def MemoryStore.setCurrentAgent (store : MemoryStore) (sessionId : String)
    (agentId : String) : MemoryStore :=
  match store.getSession sessionId with
  | none => store
  | some sess =>
    let sess :=
      if sess.context.currentAgent ≠ "" ∧ sess.context.currentAgent ≠ agentId then
        { sess with
          context :=
            { sess.context with
              previousAgents := sess.context.previousAgents ++ [sess.context.currentAgent] } }
      else sess
    store.setSession sessionId
      { sess with context := { sess.context with currentAgent := agentId } }

/-- Models `MemoryStore.recordIntent`: silently returns on an unknown id. -/
def MemoryStore.recordIntent (store : MemoryStore) (sessionId : String)
    (intentId : String) : MemoryStore :=
  match store.getSession sessionId with
  | none => store
  | some sess =>
    store.setSession sessionId
      { sess with
        context :=
          { sess.context with intentHistory := sess.context.intentHistory ++ [intentId] } }

/-! Intent classification (src/meta/intent-extractor): keyword-weight scoring
over the lower-cased message with a stable sort and static priority
tiebreak. The auxiliary `extractedEntities` side channel of the classifier is not
read by routing or escalation and is not modelled. -/

/-- Static configuration of one intent category. -/
structure IntentConfig where
  keywords : List String
  suggestedWorkflow : String
  priority : Nat

/-- The `INTENT_CATEGORIES` table, in object-literal insertion order. -/
def INTENT_CATEGORIES : List (String × IntentConfig) :=
  [ ("ESCALATION_REQUEST",
      ⟨["speak to human", "talk to human", "real person", "speak to manager",
        "talk to manager", "human agent", "live agent",
        "customer service representative", "speak to supervisor",
        "talk to supervisor", "transfer to supervisor", "transfer me to",
        "transfer to agent"], "escalation", 15⟩),
    ("SUBSCRIPTION_CANCEL",
      ⟨["cancel subscription", "stop subscription", "unsubscribe",
        "cancel my subscription", "end subscription", "terminate subscription"],
        "subscription-cancellation", 10⟩),
    ("SUBSCRIPTION_PAUSE",
      ⟨["pause subscription", "pause my subscription", "skip next", "skip order",
        "skip subscription", "delay subscription", "hold subscription",
        "skip my next"], "subscription-pause", 10⟩),
    ("SUBSCRIPTION_INQUIRY",
      ⟨["subscription status", "billing date", "next subscription",
        "when is my subscription"], "subscription-management", 5⟩),
    ("REFUND_REQUEST",
      ⟨["refund", "money back", "get refund", "want refund", "need refund",
        "full refund"], "refund-processing", 8⟩),
    ("RETURN_REQUEST",
      ⟨["return", "send back", "exchange", "wrong item", "defective",
        "return order"], "return-processing", 7⟩),
    ("CANCEL_ORDER",
      ⟨["cancel order", "cancel my order", "dont want order", "cancel the order"],
        "order-cancellation", 6⟩),
    ("ORDER_STATUS",
      ⟨["where is my order", "order status", "status of order", "tracking",
        "shipped", "delivery status", "when arrive", "what is the status",
        "order tracking", "track my order"], "order-tracking", 3⟩),
    ("SHIPPING_ADDRESS",
      ⟨["change address", "update address", "wrong address", "shipping address",
        "new address"], "address-update", 4⟩),
    ("PRODUCT_INQUIRY",
      ⟨["product", "how to use", "ingredient", "recommend", "which patch"],
        "product-information", 2⟩),
    ("DISCOUNT_REQUEST",
      ⟨["discount", "coupon", "code", "promo", "deal"], "discount-handling", 2⟩),
    ("GENERAL_INQUIRY",
      ⟨["question", "help", "information", "tell me"], "general-support", 1⟩) ]

/-- Weight of one keyword: its word count (`keyword.split(' ').length`). -/
def keywordWeight (k : String) : Nat := (splitChar ' ' k.data).length

/-- Result of intent classification. -/
structure IntentClassification where
  primary : String
  secondary : List String
  confidence : ℚ
deriving DecidableEq

/-- Comparator of the score sort: descending score, then descending priority;
total, so a stable sort keeps comparator-equal entries in table order,
matching the stable JavaScript `Array.prototype.sort`. -/
def intentLE (a b : String × Nat × Nat) : Bool :=
  decide (b.2.1 < a.2.1) || (a.2.1 == b.2.1 && decide (b.2.2 ≤ a.2.2))

/-- Stable insertion: place `a` before the first element it compares
less-or-equal to, so an earlier element stays ahead of comparator-equal later
ones. -/
def insertLe (le : α → α → Bool) (a : α) : List α → List α
  | [] => [a]
  | b :: bs => if le a b then a :: b :: bs else b :: insertLe le a bs

/-- Stable sort by a total boolean preorder (insertion sort — same output as
the stable JavaScript `Array.prototype.sort` under the equivalent
comparator). -/
def sortLe (le : α → α → Bool) : List α → List α
  | [] => []
  | a :: as => insertLe le a (sortLe le as)

/-- Models `classifyText` over already-lower-cased text. -/
def classifyText (text : String) : IntentClassification :=
  let scores := INTENT_CATEGORIES.map (fun p =>
    (p.1,
     p.2.keywords.foldl
       (fun s k => if strIncludes text (strLower k) then s + keywordWeight k else s) 0,
     p.2.priority))
  let sorted := sortLe intentLE scores
  match sorted with
  | [] => ⟨"", [], 0⟩   -- unreachable: INTENT_CATEGORIES is non-empty
  | top :: rest =>
    let secondary := (rest.take 3).filter (fun s => 0 < s.2.1) |>.map (·.1)
    let maxScore :=
      match List.lookup top.1 INTENT_CATEGORIES with
      | some cfg => cfg.keywords.foldl (fun s k => s + keywordWeight k) 0
      | none => 0
    { primary := top.1
      secondary := secondary
      confidence := if 0 < maxScore then (top.2.1 : ℚ) / (maxScore : ℚ) else 0 }

/-- Models `classifyMessage`: lower-case then classify. -/
def classifyMessage (message : String) : IntentClassification :=
  classifyText (strLower message)

/-! Orchestrator configuration (src/meta/agent-generator), restricted to the
fields the runtime reads. -/

/-- One agent configuration. -/
structure AgentConfig where
  id : String
  systemPrompt : String
  tools : List String
  triggers : List String
  boundaries : List String
deriving DecidableEq

/-- Conditions of a routing rule. -/
structure RuleConditions where
  keywords : List String
  minConfidence : ℚ
deriving DecidableEq

/-- One routing rule. -/
structure RoutingRule where
  intentId : String
  targetAgent : String
  conditions : RuleConditions
deriving DecidableEq

/-- Escalation handler configuration. -/
structure EscalationConfig where
  conditions : List String
  customerMessage : String
  summaryFields : List String

/-- Orchestrator section of the MAS config. -/
structure OrchestratorConfig where
  agents : List AgentConfig
  routing : List RoutingRule
  fallbackAgent : String
  escalationHandler : EscalationConfig

/-- Placeholder for the undefined agent of an empty configuration. -/
def emptyAgent : AgentConfig := ⟨"", "", [], [], []⟩

/-- The agent index of the orchestrator: a `Map` keyed by id built by insertion, so
on duplicate ids the last write wins. -/
def agentsGet (agents : List AgentConfig) (agentId : String) : Option AgentConfig :=
  agents.reverse.find? (fun a => a.id == agentId)

/-- The fallback agent: `agents.get(config.fallbackAgent) || agents[0]`. -/
def fallbackAgentOf (cfg : OrchestratorConfig) : AgentConfig :=
  (agentsGet cfg.agents cfg.fallbackAgent).getD (cfg.agents.headD emptyAgent)

/-- Lower-case and turn underscores into dashes:
`intent.toLowerCase().replace(/_/g, '-')`. -/
def toKebab (s : String) : String :=
  String.mk (s.data.map (fun c => if c = '_' then '-' else c.toLower))

/-- Models `Orchestrator.calculateRuleScore`: 0.2 per keyword match, 0.5 for a
primary-intent match, 0.2 for a secondary-intent match, capped at 1.
Scores are exact rationals; the claims proved about them compare a score
against a threshold computed from the same value, so they are independent of
the floating-point representation used at runtime. -/
def calculateRuleScore (message : String) (intent : IntentClassification)
    (rule : RoutingRule) : ℚ :=
  let ml := strLower message
  let s1 := rule.conditions.keywords.foldl
    (fun s k => if strIncludes ml (strLower k) then s + 1/5 else s) (0 : ℚ)
  let s2 := if toKebab intent.primary = rule.intentId then s1 + 1/2 else s1
  let s3 := if intent.secondary.any (fun sc => toKebab sc == rule.intentId) then
    s2 + 1/5 else s2
  min s3 1

/-- Models `Orchestrator.isRelatedToCurrentAgent`: the trigger
vocabulary of the current agent shares a word with the primary intent. -/
def isRelatedToCurrentAgent (intent : IntentClassification) (agent : AgentConfig) :
    Bool :=
  let intentWords := strSplit '_' (strLower intent.primary)
  agent.triggers.any (fun trigger =>
    let triggerWords := strSplit ' ' (strLower trigger)
    intentWords.any (fun w => triggerWords.contains w))

/-- One iteration of the rule-selection loop in `Orchestrator.route`. The
accumulator carries the running target, the highest accepted score, and — as
instrumentation — which rule last set the target. -/
def routeStep (agents : List AgentConfig) (message : String)
    (intent : IntentClassification) (acc : AgentConfig × ℚ × Option RoutingRule)
    (rule : RoutingRule) : AgentConfig × ℚ × Option RoutingRule :=
  let score := calculateRuleScore message intent rule
  if acc.2.1 < score ∧ rule.conditions.minConfidence ≤ score then
    match agentsGet agents rule.targetAgent with
    | some a => (a, score, some rule)
    | none => (acc.1, score, acc.2.2)
  else acc

/-- The rule-selection loop of `Orchestrator.route`, before the continuity
override. -/
def routeCore (cfg : OrchestratorConfig) (message : String)
    (intent : IntentClassification) : AgentConfig × ℚ × Option RoutingRule :=
  cfg.routing.foldl (routeStep cfg.agents message intent) (fallbackAgentOf cfg, 0, none)

/-- Result of `Orchestrator.route`. -/
structure RoutingResult where
  targetAgent : AgentConfig
  intent : IntentClassification
  confidence : ℚ

/-- Models `Orchestrator.route`: rule selection, continuity override, then session
updates (`setCurrentAgent`, `recordIntent`). -/
def route (cfg : OrchestratorConfig) (store : MemoryStore) (sessionId : String)
    (message : String) : RoutingResult × MemoryStore :=
  let intent := classifyMessage message
  let core := routeCore cfg message intent
  let target :=
    match store.getSession sessionId with
    | some sess =>
      if sess.context.currentAgent ≠ "" then
        match agentsGet cfg.agents sess.context.currentAgent with
        | some cur => if isRelatedToCurrentAgent intent cur then cur else core.1
        | none => core.1
      else core.1
    | none => core.1
  let store2 :=
    match store.getSession sessionId with
    | some _ =>
      (store.setCurrentAgent sessionId target.id).recordIntent sessionId intent.primary
    | none => store
  ({ targetAgent := target
     intent := intent
     confidence := if core.2.1 ≠ 0 then core.2.1 else intent.confidence }, store2)

/-! Escalation detection (`Orchestrator.checkEscalation` and helpers). -/

/-- Direct escalation keywords. -/
def escalationKeywords : List String :=
  ["human", "real person", "manager", "supervisor", "live agent"]

/-- Direct escalation trigger phrases. -/
def escalationTriggers : List String :=
  ["speak to", "talk to", "transfer to", "transfer me"]

/-- Result of `Orchestrator.checkEscalation`. -/
structure EscalationResult where
  escalated : Bool
  reason : Option String := none
  customerMessage : Option String := none
  internalSummary : Option EscalationSummary := none

/-- Models `Orchestrator.determineEscalationReason`: priority-ordered reason string. -/
def determineEscalationReason (message : String) (sess : Session) : String :=
  let ml := strLower message
  if strIncludes ml "human" || strIncludes ml "speak to" ||
      strIncludes ml "real person" || strIncludes ml "manager" ||
      strIncludes ml "supervisor" || strIncludes ml "transfer" then
    "customer explicitly requested human agent"
  else if 3 < sess.context.intentHistory.length then
    "complex issue requiring multiple intents"
  else if 2 ≤ (sess.toolCalls.filter (fun t => !t.result.success)).length then
    "multiple tool failures during session"
  else
    "agent cannot safely proceed"

/-- First recorded intent, with JavaScript falsiness of the empty string
(`intentHistory[0]` or else the unknown label). -/
def issueTypeOf (sess : Session) : String :=
  match sess.context.intentHistory.head? with
  | none => "unknown"
  | some s => if s = "" then "unknown" else s

/-- Models `Orchestrator.buildEscalationSummary`. -/
def buildEscalationSummary (sess : Session) : EscalationSummary :=
  { sessionId := sess.id
    customerEmail := sess.customerEmail
    customerName := sess.customerFirstName ++ " " ++ sess.customerLastName
    shopifyId := sess.shopifyCustomerId
    issueType := issueTypeOf sess
    messageCount := sess.messages.length
    toolCalls := sess.toolCalls.map (fun t => ⟨t.toolHandle, t.result.success⟩)
    mentionedOrders := sess.context.mentionedOrderNumbers
    attemptedResolution := sess.context.currentAgent
    conversationSummary :=
      (sess.messages.drop (sess.messages.length - 3)).map
        (fun m => ⟨m.role, m.content.take 100⟩) }

/-- The fixed reply sent for an already-escalated session. -/
def escalatedFixedMessage : String :=
  "This issue has been escalated to our team. A specialist will respond shortly."

/-- The derived escalation condition: some configured condition mentions
`cannot determine`, more than 3 intents are recorded, and at least 3 are
distinct. -/
def derivedEscalation (ecfg : EscalationConfig) (sess : Session) : Bool :=
  ecfg.conditions.any (fun condition =>
    let condLower := strLower condition
    if strIncludes condLower "cannot determine" &&
        decide (3 < sess.context.intentHistory.length) then
      decide (3 ≤ sess.context.intentHistory.dedup.length)
    else false)

/-- Models `Orchestrator.checkEscalation`. The `agentResponse` argument is accepted
but, as in the source, never read. -/
def checkEscalation (ecfg : EscalationConfig) (store : MemoryStore)
    (sessionId : String) (message : String) (now : Int)
    (_agentResponse : Option String) : EscalationResult × MemoryStore :=
  match store.getSession sessionId with
  | none => ({ escalated := false }, store)
  | some sess =>
    if sess.context.escalated then
      ({ escalated := true
         reason := sess.context.escalationReason
         customerMessage := some escalatedFixedMessage }, store)
    else
      let ml := strLower message
      let hasKeyword := escalationKeywords.any (fun k => strIncludes ml k)
      let hasTrigger := escalationTriggers.any (fun t => strIncludes ml t)
      let shouldEscalate := hasKeyword || hasTrigger || derivedEscalation ecfg sess
      if shouldEscalate then
        let reason := determineEscalationReason message sess
        let summary := buildEscalationSummary sess
        let store2 := store.setSession sessionId (sess.escalate reason summary now)
        ({ escalated := true
           reason := some reason
           customerMessage := some ecfg.customerMessage
           internalSummary := some summary }, store2)
      else
        ({ escalated := false }, store)

/-! Resilience layer (src/mas/resilience): retry with exponential backoff and
the circuit breaker. `withRetry` is instrumented to report how many times the
wrapped function was invoked and which delays were slept, so that the retry
claims are expressible; the control flow is otherwise a direct transcription
of the loop. -/

/-- Retry configuration, generic in the error type. -/
structure RetryConfig (E : Type) where
  maxAttempts : Nat
  initialDelayMs : ℚ
  maxDelayMs : ℚ
  backoffMultiplier : ℚ
  retryOn : E → Bool

/-- Observable outcome of a `withRetry` run. A `result` of `Except.error none`
is the dead trailing `throw lastError` reached only when `maxAttempts < 1`. -/
structure RetryTrace (E T : Type) where
  result : Except (Option E) T
  attemptsMade : Nat
  delaysSlept : List ℚ

/-- One delay-update step: `delay = min(delay * backoffMultiplier, maxDelayMs)`. -/
def delayUpdate (cfg : RetryConfig E) (d : ℚ) : ℚ :=
  min (d * cfg.backoffMultiplier) cfg.maxDelayMs

/-- The retry loop. `remaining` counts attempts left including the current
one; `done` counts attempts already made (so the wrapped function is invoked
as `fn done`); the running `delay` and the accumulated `slept` log follow the
source loop. -/
def retryLoop (cfg : RetryConfig E) (fn : Nat → Except E T) :
    Nat → Nat → ℚ → List ℚ → RetryTrace E T
  | 0, done, _, slept => ⟨.error none, done, slept⟩
  | remaining + 1, done, delay, slept =>
    match fn done with
    | .ok v => ⟨.ok v, done + 1, slept⟩
    | .error e =>
      if !cfg.retryOn e || remaining == 0 then ⟨.error (some e), done + 1, slept⟩
      else retryLoop cfg fn remaining (done + 1) (delayUpdate cfg delay) (slept ++ [delay])

/-- Models `withRetry`, with the wrapped asynchronous function modelled as a map from
the attempt index to its outcome. -/
def withRetry (cfg : RetryConfig E) (fn : Nat → Except E T) : RetryTrace E T :=
  retryLoop cfg fn cfg.maxAttempts 0 cfg.initialDelayMs []

/-- The expected delay sequence: `delaySeq cfg n` is the delay slept between
attempts `n + 1` and `n + 2`. -/
def delaySeq (cfg : RetryConfig E) (n : Nat) : ℚ :=
  (delayUpdate cfg)^[n] cfg.initialDelayMs

/-- Circuit breaker states. -/
inductive CircuitState where
  | CLOSED
  | OPEN
  | HALF_OPEN
deriving DecidableEq

/-- Circuit breaker configuration. -/
structure CircuitBreakerConfig where
  failureThreshold : Nat
  successThreshold : Nat
  resetTimeoutMs : Int
  monitoringWindowMs : Int
deriving DecidableEq

/-- The defaults (`DEFAULT_CIRCUIT_CONFIG`). -/
def DEFAULT_CIRCUIT_CONFIG : CircuitBreakerConfig :=
  { failureThreshold := 5
    successThreshold := 2
    resetTimeoutMs := 30000
    monitoringWindowMs := 60000 }

/-- Per-service circuit statistics. -/
structure CircuitStats where
  state : CircuitState
  failures : Nat
  successes : Nat
  lastFailure : Int
  lastStateChange : Int
  recentFailures : List Int
deriving DecidableEq

/-- The circuit created on first use of a service id (`getCircuit`). -/
def freshCircuit (now : Int) : CircuitStats :=
  { state := .CLOSED
    failures := 0
    successes := 0
    lastFailure := 0
    lastStateChange := now
    recentFailures := [] }

/-- Models `CircuitBreaker.canExecute`, effect on one circuit. -/
def canExecuteStats (cfg : CircuitBreakerConfig) (c : CircuitStats) (now : Int) :
    Bool × CircuitStats :=
  match c.state with
  | .CLOSED => (true, c)
  | .OPEN =>
    if cfg.resetTimeoutMs ≤ now - c.lastStateChange then
      (true, { c with state := .HALF_OPEN, lastStateChange := now, successes := 0 })
    else (false, c)
  | .HALF_OPEN => (true, c)

/-- Models `CircuitBreaker.recordFailure`, effect on one circuit: prune failures that
left the monitoring window, record the new one, and trip the breaker if the
state machine requires it. -/
def recordFailureStats (cfg : CircuitBreakerConfig) (c : CircuitStats) (now : Int) :
    CircuitStats :=
  let recent := (c.recentFailures.filter (fun t => now - t < cfg.monitoringWindowMs)) ++ [now]
  let c1 := { c with recentFailures := recent, failures := c.failures + 1, lastFailure := now }
  match c1.state with
  | .HALF_OPEN => { c1 with state := .OPEN, lastStateChange := now }
  | .CLOSED =>
    if cfg.failureThreshold ≤ recent.length then
      { c1 with state := .OPEN, lastStateChange := now }
    else c1
  | .OPEN => c1

/-- Models `CircuitBreaker.recordSuccess`, effect on one circuit. -/
def recordSuccessStats (cfg : CircuitBreakerConfig) (c : CircuitStats) (now : Int) :
    CircuitStats :=
  match c.state with
  | .HALF_OPEN =>
    let s := c.successes + 1
    if cfg.successThreshold ≤ s then
      { c with successes := s, state := .CLOSED, failures := 0, lastStateChange := now }
    else { c with successes := s }
  | _ => c

/-- A circuit breaker instance: its per-service registry and configuration. -/
structure CircuitBreaker where
  circuits : List (String × CircuitStats)
  config : CircuitBreakerConfig
deriving DecidableEq

/-- Models `getCircuit` without the insertion effect: the stored circuit, or a fresh
one created at `now`. -/
def CircuitBreaker.peek (cb : CircuitBreaker) (serviceId : String) (now : Int) :
    CircuitStats :=
  (List.lookup serviceId cb.circuits).getD (freshCircuit now)

/-- Models `Map.set`: replace the entry in place if present, else append. -/
def CircuitBreaker.setCircuit (cb : CircuitBreaker) (serviceId : String)
    (c : CircuitStats) : CircuitBreaker :=
  if (List.lookup serviceId cb.circuits).isSome then
    { cb with
      circuits := cb.circuits.map (fun p => if p.1 = serviceId then (serviceId, c) else p) }
  else { cb with circuits := cb.circuits ++ [(serviceId, c)] }

/-- Models `CircuitBreaker.canExecute` (mutating: an elapsed reset timeout moves the
circuit to HALF_OPEN; first use registers a fresh circuit). -/
def CircuitBreaker.canExecute (cb : CircuitBreaker) (serviceId : String) (now : Int) :
    Bool × CircuitBreaker :=
  let r := canExecuteStats cb.config (cb.peek serviceId now) now
  (r.1, cb.setCircuit serviceId r.2)

/-- Models `CircuitBreaker.recordFailure`. -/
def CircuitBreaker.recordFailure (cb : CircuitBreaker) (serviceId : String)
    (now : Int) : CircuitBreaker :=
  cb.setCircuit serviceId (recordFailureStats cb.config (cb.peek serviceId now) now)

/-- Models `CircuitBreaker.recordSuccess`. -/
def CircuitBreaker.recordSuccess (cb : CircuitBreaker) (serviceId : String)
    (now : Int) : CircuitBreaker :=
  cb.setCircuit serviceId (recordSuccessStats cb.config (cb.peek serviceId now) now)

/-! Tool client (src/mas/tools/client.ts, resilient variant): schema
validation, circuit-breaker gate, then the HTTP call under `withRetry`. The
HTTP layer is external I/O and is modelled as an oracle mapping the attempt
index to either a returned `ToolCallResult` (the classification `makeRequest` makes of
HTTP outcomes, including the timeout result) or a thrown transport error
message. -/

/-- One parameter of a tool schema (`ToolParam`); `enumVals` models the
optional `enum` list. -/
structure ToolParam where
  name : String
  type : String
  required : Bool
  description : String := ""
  enumVals : Option (List String) := none

/-- A tool definition; the constant POST `method` field and the unused
`outputSchema` are omitted. -/
structure ToolDefinition where
  handle : String
  description : String := ""
  endpoint : String
  params : List ToolParam

/-- Result shape of `ToolClient.execute`. -/
structure ToolCallResult where
  success : Bool
  data : Option JValue := none
  error : Option String := none
  errorCode : Option String := none
  retryable : Option Bool := none
  suggestion : Option String := none

/-- Checks that the value is a JavaScript string. -/
def jIsStr : JValue → Bool
  | .vStr _ => true
  | _ => false

/-- Checks that the value is a JavaScript number. -/
def jIsNum : JValue → Bool
  | .vNum _ => true
  | _ => false

/-- Checks that the value is a JavaScript boolean. -/
def jIsBool : JValue → Bool
  | .vBool _ => true
  | _ => false

/-- Checks `Array.isArray(value)`. -/
def jIsArr : JValue → Bool
  | .vArr _ => true
  | _ => false

/-- A non-null, non-array object. -/
def jIsObj : JValue → Bool
  | .vObj _ => true
  | _ => false

/-- Validation of a single parameter against its schema entry, in the order
of the source checks; `none` means the parameter passes. -/
def validateParam (p : ToolParam) (params : List (String × JValue)) : Option String :=
  if p.required && (List.lookup p.name params).isNone then
    some ("Missing required parameter: " ++ p.name)
  else
    match List.lookup p.name params with
    | none => none
    | some v =>
      if p.type = "string" ∧ ¬ jIsStr v = true then
        some ("Parameter " ++ p.name ++ " must be a string")
      else if p.type = "number" ∧ ¬ jIsNum v = true then
        some ("Parameter " ++ p.name ++ " must be a number")
      else if p.type = "boolean" ∧ ¬ jIsBool v = true then
        some ("Parameter " ++ p.name ++ " must be a boolean")
      else if p.type = "array" ∧ ¬ jIsArr v = true then
        some ("Parameter " ++ p.name ++ " must be an array")
      else if p.type = "object" ∧ ¬ jIsObj v = true then
        some ("Parameter " ++ p.name ++ " must be an object")
      else
        match p.enumVals with
        | none => none
        | some es =>
          let inEnum :=
            match v with
            | .vStr s => es.contains s
            | _ => false   -- strict equality: a non-string never equals an enum entry
          if inEnum then none
          else some ("Parameter " ++ p.name ++ " must be one of: " ++
            joinSep ", " es)

/-- Models `ToolClient.validateParams`: the first failing check, if any. -/
def validateParams (tool : ToolDefinition) (params : List (String × JValue)) :
    Option String :=
  tool.params.findSome? (fun p => validateParam p params)

/-- Models `getToolByHandle` over a catalog list (`ALL_TOOLS.find`). -/
def getToolByHandle (catalog : List ToolDefinition) (handle : String) :
    Option ToolDefinition :=
  catalog.find? (fun t => t.handle == handle)

/-- The `retryOn` predicate `ToolClient.execute` passes to `withRetry`: retry
only on errors whose message mentions a timeout or network problem. -/
def toolRetryOn (msg : String) : Bool :=
  strIncludes msg "timeout" || strIncludes msg "network"

/-- The retry configuration used for tool calls: `maxAttempts: 2` and
`initialDelayMs: 500` overriding `DEFAULT_RETRY_CONFIG`. -/
def toolRetryConfig : RetryConfig String :=
  { maxAttempts := 2
    initialDelayMs := 500
    maxDelayMs := 5000
    backoffMultiplier := 2
    retryOn := toolRetryOn }

/-- Observable outcome of one `ToolClient.execute` call: the returned result,
the circuit breaker afterwards, and how many HTTP requests were made. -/
structure ExecOutcome where
  result : ToolCallResult
  breaker : CircuitBreaker
  httpCalls : Nat

/-- The unknown-tool result (`ToolError.notFound`). -/
def toolNotFoundResult (handle : String) : ToolCallResult :=
  { success := false
    error := some ("[E2001] Unknown tool: " ++ handle)
    errorCode := some "E2001"
    retryable := some false
    suggestion := some "Check tool handle spelling. Available tools: shopify_*, skio_*" }

/-- The validation-failure result. -/
def validationFailedResult (errMsg : String) : ToolCallResult :=
  { success := false
    error := some errMsg
    errorCode := some "E2002"
    retryable := some true
    suggestion := some ("Fix parameter and retry. " ++ errMsg) }

/-- The open-circuit result. -/
def circuitOpenResult (handle : String) : ToolCallResult :=
  { success := false
    error := some ("Circuit open: " ++ handle ++ " temporarily unavailable")
    errorCode := some "E2005"
    retryable := some true
    suggestion := some "Tool is experiencing issues. Wait and retry." }

/-- The caught-transport-error result (`ToolError.networkError`); the handle
is recorded only in the error context, not in the message. -/
def networkErrorResult (_handle msg : String) : ToolCallResult :=
  { success := false
    error := some ("[E2006] Network error: " ++ msg)
    errorCode := some "E2006"
    retryable := some true
    suggestion := some "Check network connectivity and API endpoint." }

/-- Models `ToolClient.execute`: tool lookup, parameter validation, circuit-breaker
gate, then the HTTP request under retry, recording the outcome in the
circuit. -/
def ToolClient.execute (catalog : List ToolDefinition) (cb : CircuitBreaker)
    (now : Int) (http : Nat → Except String ToolCallResult) (handle : String)
    (params : List (String × JValue)) : ExecOutcome :=
  match getToolByHandle catalog handle with
  | none => ⟨toolNotFoundResult handle, cb, 0⟩
  | some tool =>
    match validateParams tool params with
    | some errMsg => ⟨validationFailedResult errMsg, cb, 0⟩
    | none =>
      let gate := cb.canExecute handle now
      if !gate.1 then ⟨circuitOpenResult handle, gate.2, 0⟩
      else
        let trace := withRetry toolRetryConfig http
        match trace.result with
        | .ok resp =>
          if resp.success then ⟨resp, gate.2.recordSuccess handle now, trace.attemptsMade⟩
          else ⟨resp, gate.2.recordFailure handle now, trace.attemptsMade⟩
        | .error e =>
          ⟨networkErrorResult handle (e.getD "Unknown error"), gate.2.recordFailure handle now,
            trace.attemptsMade⟩

/-! Runtime facade (src/mas/runtime.ts `MASRuntime.handleMessage`). The
per-agent `AgentExecutor.execute` drives the LLM tool-call loop over the
network; it is passed in as an opaque function from the store, session id and
message to the updated store and the final agent message. `RtStep` records
which pipeline stages ran. -/

/-- Pipeline stages whose invocation the claims talk about. -/
inductive RtStep where
  | routeStep
  | executeStep
deriving DecidableEq

/-- Response shape of `MASRuntime.handleMessage`. -/
structure MessageResponse where
  sessionId : String
  message : String
  escalated : Bool
  escalationSummary : Option EscalationSummary := none

/-- Models `MASRuntime.handleMessage`: session lookup, escalation short-circuit,
message recording, pre-check, routing, agent execution, post-check. -/
def handleMessage (cfg : OrchestratorConfig)
    (exec : MemoryStore → String → String → MemoryStore × String)
    (store : MemoryStore) (sessionId : String) (message : String) (now : Int) :
    Except String (MessageResponse × MemoryStore × List RtStep) :=
  match store.getSession sessionId with
  | none => .error ("Session not found: " ++ sessionId)
  | some sess =>
    if store.isEscalated sessionId then
      .ok ({ sessionId := sessionId
             message := escalatedFixedMessage
             escalated := true
             escalationSummary := sess.context.escalationSummary }, store, [])
    else
      match store.addMessage sessionId .customer message now with
      | .error e => .error e
      | .ok store1 =>
        let pre := checkEscalation cfg.escalationHandler store1 sessionId message now none
        if pre.1.escalated then
          .ok ({ sessionId := sessionId
                 message := pre.1.customerMessage.getD "Escalating to our team."
                 escalated := true
                 escalationSummary := pre.1.internalSummary }, pre.2, [])
        else
          let routed := route cfg pre.2 sessionId message
          let executed := exec routed.2 sessionId message
          let post := checkEscalation cfg.escalationHandler executed.1 sessionId message now
            (some executed.2)
          if post.1.escalated then
            .ok ({ sessionId := sessionId
                   message := post.1.customerMessage.getD executed.2
                   escalated := true
                   escalationSummary := post.1.internalSummary }, post.2,
              [.routeStep, .executeStep])
          else
            .ok ({ sessionId := sessionId
                   message := executed.2
                   escalated := false }, post.2, [.routeStep, .executeStep])

/-! Generic association-list lemmas shared by the store and circuit-breaker
proofs. -/

theorem lookup_replace {β : Type _} (k : String) (v : β) :
    ∀ l : List (String × β), (List.lookup k l).isSome →
      List.lookup k (l.map (fun p => if p.1 = k then (k, v) else p)) = some v := by
  intro l
  induction l with
  | nil => intro h; simp [List.lookup] at h
  | cons p rest ih =>
    obtain ⟨p1, p2⟩ := p
    intro h
    by_cases hk : p1 = k
    · rw [List.map_cons]
      simp only [if_pos hk]
      simp [List.lookup]
    · have hbeq : (k == p1) = false := by
        simp only [beq_eq_false_iff_ne]
        exact fun he => hk he.symm
      rw [List.map_cons]
      simp only [if_neg hk]
      simp only [List.lookup, hbeq] at h ⊢
      exact ih h

theorem lookup_append_absent {β : Type _} (k : String) (v : β) :
    ∀ l : List (String × β), List.lookup k l = none →
      List.lookup k (l ++ [(k, v)]) = some v := by
  intro l
  induction l with
  | nil => intro _; simp [List.lookup]
  | cons p rest ih =>
    obtain ⟨p1, p2⟩ := p
    intro h
    cases hbeq : (k == p1) with
    | true => simp [List.lookup, hbeq] at h
    | false =>
      simp only [List.lookup, hbeq] at h
      simpa [List.lookup, hbeq] using ih h

/-- Keyed write shorthand for `MemoryStore.setSession`. -/
theorem getSession_setSession (store : MemoryStore) (sid : String) (s : Session)
    (h : (store.getSession sid).isSome) :
    (store.setSession sid s).getSession sid = some s :=
  lookup_replace sid s store h

/-! Claim C8: behaviour of the memory-store mutators on an unknown session
id. -/

/-- C8 counterexample: the claim says every mutator (including
`setCurrentAgent` and `recordIntent`) fails with a session-not-found
condition on an unknown id, but those two silently return with the store
unchanged — they have no failure channel at all. -/
theorem mutators_silent_noop_counterexample :
    MemoryStore.setCurrentAgent [] "missing" "agent-a" = ([] : MemoryStore) ∧
    MemoryStore.recordIntent [] "missing" "order-status" = ([] : MemoryStore) :=
  ⟨rfl, rfl⟩

/-- C8 amended: on an unknown session id, `addMessage`, `recordToolCall` and
`escalate` fail with a session-not-found condition, while `setCurrentAgent`
and `recordIntent` silently leave the store unchanged. -/
theorem mutators_unknown_session (store : MemoryStore) (sid : String) (role : Role)
    (content : String) (now : Int) (toolHandle : String)
    (params : List (String × JValue)) (result : ToolResult) (reason : String)
    (summary : EscalationSummary) (agentId intentId : String)
    (h : store.getSession sid = none) :
    store.addMessage sid role content now = .error ("Session not found: " ++ sid) ∧
    store.recordToolCall sid toolHandle params result now =
      .error ("Session not found: " ++ sid) ∧
    store.escalate sid reason summary now = .error ("Session not found: " ++ sid) ∧
    store.setCurrentAgent sid agentId = store ∧
    store.recordIntent sid intentId = store := by
  refine ⟨?_, ?_, ?_, ?_, ?_⟩ <;>
    simp [MemoryStore.addMessage, MemoryStore.recordToolCall, MemoryStore.escalate,
      MemoryStore.setCurrentAgent, MemoryStore.recordIntent, h]

/-! Concrete fixtures used to instantiate the claims. -/

/-- A fresh session as produced by `startSession`. -/
def baseSession : Session :=
  { id := "s1"
    customerId := "c1"
    customerEmail := "ada@example.com"
    customerFirstName := "Ada"
    customerLastName := "L"
    shopifyCustomerId := "c1"
    startedAt := 0
    lastActivity := 0
    status := .active
    messages := []
    toolCalls := []
    context := {} }

/-- An escalation summary fixture. -/
def sumA : EscalationSummary :=
  ⟨"s1", "ada@example.com", "Ada L", "c1", "unknown", 1, [], [], "", []⟩

/-- A second, different escalation summary fixture. -/
def sumB : EscalationSummary :=
  ⟨"s1", "ada@example.com", "Ada L", "c1", "unknown", 4, [], [], "", []⟩

/-- A session that has already been escalated with an explicit-human-request
reason. -/
def escalatedSession : Session :=
  baseSession.escalate "customer explicitly requested human agent" sumA 1

/-- A failed tool call. -/
def failedCall : ToolCallRec :=
  ⟨"shopify_get_order_details", [], ⟨false, none, some "HTTP 500"⟩, 0⟩

/-- The escalation-handler configuration produced by the default workflow
parser: the second condition mentions `cannot determine`. The customer
message is abbreviated (its exact wording carries no weight in the claims). -/
def escCfg : EscalationConfig :=
  ⟨["customer explicitly requests human", "agent cannot determine correct action",
    "sensitive financial dispute", "legal or regulatory concern"],
    "Escalating this to our team for further review. A specialist will respond shortly.",
    ["issue_type", "customer_sentiment", "attempted_resolution", "blocking_reason"]⟩

/-- C8 witness: the amended behaviour at the empty store. -/
theorem mutators_unknown_session_witness :
    MemoryStore.addMessage [] "s9" Role.customer "hi" 0 =
      .error ("Session not found: " ++ "s9") ∧
    MemoryStore.recordToolCall [] "s9" "shopify_get_order_details" [] ⟨true, none, none⟩ 0 =
      .error ("Session not found: " ++ "s9") ∧
    MemoryStore.escalate [] "s9" "agent cannot safely proceed"
      ⟨"", "", "", "", "", 0, [], [], "", []⟩ 0 =
      .error ("Session not found: " ++ "s9") ∧
    MemoryStore.setCurrentAgent [] "s9" "general" = ([] : MemoryStore) ∧
    MemoryStore.recordIntent [] "s9" "ORDER_STATUS" = ([] : MemoryStore) :=
  mutators_unknown_session [] "s9" Role.customer "hi" 0 "shopify_get_order_details"
    [] ⟨true, none, none⟩ "agent cannot safely proceed"
    ⟨"", "", "", "", "", 0, [], [], "", []⟩ "general" "ORDER_STATUS" rfl

/-! Claim C9: what re-escalating an already-escalated session does to the
session data. -/

/-- C9 counterexample: `escalate` on an already-escalated session is not a
no-op at the data level — it overwrites `escalationReason` (and the summary)
with the new arguments. Shown at a session escalated with the explicit
human-request reason, re-escalated with the generic reason. -/
theorem escalate_overwrite_counterexample :
    MemoryStore.escalate [("s1", escalatedSession)] "s1" "agent cannot safely proceed"
      sumB 5 =
      .ok [("s1", escalatedSession.escalate "agent cannot safely proceed" sumB 5)] ∧
    (escalatedSession.escalate "agent cannot safely proceed" sumB 5).context.escalationReason ≠
      escalatedSession.context.escalationReason := by
  constructor
  · rfl
  · decide

/-- C9 amended: for an already-escalated session, `escalate` leaves `status`
and the `escalated` flag unchanged but overwrites `escalationReason` and
`escalationSummary` with the new arguments; it is a data-level no-op only
when called with the reason and summary already stored. -/
theorem escalate_already_escalated (store : MemoryStore) (sid : String)
    (sess : Session) (reason : String) (summary : EscalationSummary) (now : Int)
    (hlook : store.getSession sid = some sess)
    (hstat : sess.status = .escalated) (hesc : sess.context.escalated = true) :
    store.escalate sid reason summary now =
      .ok (store.setSession sid (sess.escalate reason summary now)) ∧
    (store.setSession sid (sess.escalate reason summary now)).getSession sid =
      some (sess.escalate reason summary now) ∧
    (sess.escalate reason summary now).status = sess.status ∧
    (sess.escalate reason summary now).context.escalated = sess.context.escalated ∧
    (sess.escalate reason summary now).context.escalationReason = some reason ∧
    (sess.escalate reason summary now).context.escalationSummary = some summary := by
  refine ⟨?_, ?_, ?_, ?_, rfl, rfl⟩
  · simp [MemoryStore.escalate, hlook]
  · exact getSession_setSession store sid _ (by rw [hlook]; rfl)
  · simp [Session.escalate, hstat]
  · simp [Session.escalate, hesc]

/-- C9 witness: re-escalating the concrete escalated session with the same
stored reason and summary reproduces exactly that reason and summary. -/
theorem escalate_already_escalated_witness :
    MemoryStore.escalate [("s1", escalatedSession)] "s1"
        "customer explicitly requested human agent" sumA 7 =
      .ok (MemoryStore.setSession [("s1", escalatedSession)] "s1"
        (escalatedSession.escalate "customer explicitly requested human agent" sumA 7)) ∧
    (MemoryStore.setSession [("s1", escalatedSession)] "s1"
        (escalatedSession.escalate "customer explicitly requested human agent" sumA 7)).getSession
        "s1" =
      some (escalatedSession.escalate "customer explicitly requested human agent" sumA 7) ∧
    (escalatedSession.escalate "customer explicitly requested human agent" sumA 7).status =
      escalatedSession.status ∧
    (escalatedSession.escalate "customer explicitly requested human agent" sumA
        7).context.escalated =
      escalatedSession.context.escalated ∧
    (escalatedSession.escalate "customer explicitly requested human agent" sumA
        7).context.escalationReason =
      some "customer explicitly requested human agent" ∧
    (escalatedSession.escalate "customer explicitly requested human agent" sumA
        7).context.escalationSummary =
      some sumA :=
  escalate_already_escalated [("s1", escalatedSession)] "s1" escalatedSession
    "customer explicitly requested human agent" sumA 7 rfl rfl rfl

/-! Claim C10: entity extraction via `addMessage` is idempotent and
order-preserving. -/

theorem mem_addOrderMatch (l : List String) (m a : String) (h : a ∈ l) :
    a ∈ addOrderMatch l m := by
  unfold addOrderMatch
  split
  · exact h
  · exact List.mem_append_left _ h

theorem addOrderMatch_covers (l : List String) (m : String) :
    m ∈ addOrderMatch l m ∨ normalizeOrder m ∈ addOrderMatch l m := by
  unfold addOrderMatch
  split
  · next hcond =>
    simp only [Bool.or_eq_true] at hcond
    rcases hcond with h | h
    · right
      simpa [List.contains, List.elem_iff] using h
    · left
      simpa [List.contains, List.elem_iff] using h
  · left
    exact List.mem_append_right _ (List.mem_singleton.mpr rfl)

theorem fold_mem_mono : ∀ (ms l : List String) (a : String),
    a ∈ l → a ∈ ms.foldl addOrderMatch l := by
  intro ms
  induction ms with
  | nil => intro l a h; simpa using h
  | cons m rest ih =>
    intro l a h
    exact ih (addOrderMatch l m) a (mem_addOrderMatch l m a h)

theorem fold_covers : ∀ (ms l : List String), ∀ m ∈ ms,
    m ∈ ms.foldl addOrderMatch l ∨ normalizeOrder m ∈ ms.foldl addOrderMatch l := by
  intro ms
  induction ms with
  | nil => intro l m h; simp at h
  | cons m0 rest ih =>
    intro l m hm
    rcases List.mem_cons.mp hm with h | h
    · subst h
      rcases addOrderMatch_covers l m with h2 | h2
      · left
        exact fold_mem_mono rest _ _ h2
      · right
        exact fold_mem_mono rest _ _ h2
    · exact ih (addOrderMatch l m0) m h

theorem addOrderMatch_noop (l : List String) (m : String)
    (h : m ∈ l ∨ normalizeOrder m ∈ l) : addOrderMatch l m = l := by
  unfold addOrderMatch
  rw [if_pos]
  simp only [Bool.or_eq_true]
  rcases h with h | h
  · right
    simp [List.contains, List.elem_iff, h]
  · left
    simp [List.contains, List.elem_iff, h]

theorem fold_noop : ∀ (ms l : List String),
    (∀ m ∈ ms, m ∈ l ∨ normalizeOrder m ∈ l) → ms.foldl addOrderMatch l = l := by
  intro ms
  induction ms with
  | nil => intro l _; rfl
  | cons m0 rest ih =>
    intro l h
    have h0 : addOrderMatch l m0 = l := addOrderMatch_noop l m0 (h m0 (by simp))
    simp only [List.foldl_cons, h0]
    exact ih l (fun m hm => h m (List.mem_cons_of_mem _ hm))

theorem fold_idem (ms l : List String) :
    ms.foldl addOrderMatch (ms.foldl addOrderMatch l) = ms.foldl addOrderMatch l :=
  fold_noop ms _ (fold_covers ms l)

theorem fold_append_suffix : ∀ (ms l : List String),
    ∃ suffix, ms.foldl addOrderMatch l = l ++ suffix := by
  intro ms
  induction ms with
  | nil => intro l; exact ⟨[], by simp⟩
  | cons m0 rest ih =>
    intro l
    rcases ih (addOrderMatch l m0) with ⟨sfx, hsfx⟩
    simp only [List.foldl_cons]
    by_cases h0 : (l.contains (normalizeOrder m0) || l.contains m0) = true
    · have he : addOrderMatch l m0 = l := by
        unfold addOrderMatch
        rw [if_pos h0]
      rw [he] at hsfx
      exact ⟨sfx, by rw [he, hsfx]⟩
    · have he : addOrderMatch l m0 = l ++ [m0] := by
        unfold addOrderMatch
        rw [if_neg h0]
      rw [he] at hsfx
      exact ⟨[m0] ++ sfx, by rw [he, hsfx, List.append_assoc]⟩

/-- C10 theorem: recording the same customer message twice adds no new entry
to `mentionedOrderNumbers` the second time, and the first recording only
appends to the existing insertion-ordered list. -/
theorem addMessage_entity_idempotent (store : MemoryStore) (sid content : String)
    (t1 t2 : Int) (sess : Session) (hlook : store.getSession sid = some sess) :
    ∃ store1 store2 sess1 sess2,
      store.addMessage sid .customer content t1 = .ok store1 ∧
      store1.addMessage sid .customer content t2 = .ok store2 ∧
      store1.getSession sid = some sess1 ∧
      store2.getSession sid = some sess2 ∧
      sess2.context.mentionedOrderNumbers = sess1.context.mentionedOrderNumbers ∧
      ∃ fresh, sess1.context.mentionedOrderNumbers =
        sess.context.mentionedOrderNumbers ++ fresh := by
  have hsome : (store.getSession sid).isSome := by rw [hlook]; rfl
  refine ⟨store.setSession sid (sess.addMessage .customer content t1),
    (store.setSession sid (sess.addMessage .customer content t1)).setSession sid
      ((sess.addMessage .customer content t1).addMessage .customer content t2),
    sess.addMessage .customer content t1,
    (sess.addMessage .customer content t1).addMessage .customer content t2,
    ?_, ?_, ?_, ?_, ?_, ?_⟩
  · simp [MemoryStore.addMessage, hlook]
  · have hlook1 := getSession_setSession store sid (sess.addMessage .customer content t1) hsome
    simp [MemoryStore.addMessage, hlook1]
  · exact getSession_setSession store sid _ hsome
  · refine getSession_setSession _ sid _ ?_
    rw [getSession_setSession store sid _ hsome]
    rfl
  · simp only [Session.addMessage, extractEntitiesCtx, if_pos rfl]
    exact fold_idem (scanOrders content.data) sess.context.mentionedOrderNumbers
  · simp only [Session.addMessage, extractEntitiesCtx, if_pos rfl]
    exact fold_append_suffix (scanOrders content.data) sess.context.mentionedOrderNumbers

/-- C10 witness: the double-recording behaviour at a fresh session and the
order-mention message from the specification scenarios. -/
theorem addMessage_entity_idempotent_witness :
    ∃ store1 store2 sess1 sess2,
      MemoryStore.addMessage [("s1", baseSession)] "s1" .customer
          "Where is my order #1234567?" 1 = .ok store1 ∧
      store1.addMessage "s1" .customer "Where is my order #1234567?" 2 = .ok store2 ∧
      store1.getSession "s1" = some sess1 ∧
      store2.getSession "s1" = some sess2 ∧
      sess2.context.mentionedOrderNumbers = sess1.context.mentionedOrderNumbers ∧
      ∃ fresh, sess1.context.mentionedOrderNumbers =
        baseSession.context.mentionedOrderNumbers ++ fresh :=
  addMessage_entity_idempotent [("s1", baseSession)] "s1" "Where is my order #1234567?"
    1 2 baseSession rfl

/-! Claim C2: escalation after repeated tool failures. In the code, failed
tool calls are never an escalation trigger — they only select the reason
string once escalation has fired through a keyword, a trigger phrase, or the
derived multi-intent condition. -/

/-- C2 counterexample: a session with two recorded tool-call failures, next
message `hello` (no human-request keyword or trigger phrase): escalation does
not fire at all, although the failure count the claim relies on is met. -/
theorem toolFailures_no_escalation_counterexample :
    (checkEscalation escCfg
        [("s1", { baseSession with toolCalls := [failedCall, failedCall] })]
        "s1" "hello" 1 none).1.escalated = false ∧
    2 ≤ (({ baseSession with toolCalls := [failedCall, failedCall] } : Session).toolCalls.filter
        (fun t => !t.result.success)).length := by
  constructor
  · decide
  · decide

/-- C2 amended: two or more failed tool calls do not by themselves trigger
escalation; rather, when escalation fires for a message matching a trigger
phrase but none of the reason keywords, and the session has at most 3
recorded intents and at least two failed tool calls, the escalation reason is
the multiple-tool-failures category. -/
theorem toolFailures_reason (ecfg : EscalationConfig) (store : MemoryStore)
    (sid message : String) (now : Int) (sess : Session)
    (hlook : store.getSession sid = some sess)
    (hnesc : sess.context.escalated = false)
    (htrig : (escalationTriggers.any (fun t => strIncludes (strLower message) t)) = true)
    (hk1 : strIncludes (strLower message) "human" = false)
    (hk2 : strIncludes (strLower message) "speak to" = false)
    (hk3 : strIncludes (strLower message) "real person" = false)
    (hk4 : strIncludes (strLower message) "manager" = false)
    (hk5 : strIncludes (strLower message) "supervisor" = false)
    (hk6 : strIncludes (strLower message) "transfer" = false)
    (hhist : sess.context.intentHistory.length ≤ 3)
    (hfail : 2 ≤ (sess.toolCalls.filter (fun t => !t.result.success)).length) :
    (checkEscalation ecfg store sid message now none).1.escalated = true ∧
    (checkEscalation ecfg store sid message now none).1.reason =
      some "multiple tool failures during session" := by
  have h3 : ¬ (3 < sess.context.intentHistory.length) := by omega
  have hreason : determineEscalationReason message sess =
      "multiple tool failures during session" := by
    unfold determineEscalationReason
    simp only [hk1, hk2, hk3, hk4, hk5, hk6]
    simp [h3, hfail]
  unfold checkEscalation
  rw [hlook]
  simp [hnesc, htrig, hreason]

/-- C2 witness: message `can i talk to someone` (a trigger phrase outside the
reason-keyword set) on a session with two failed tool calls. -/
theorem toolFailures_reason_witness :
    (checkEscalation escCfg
        [("s1", { baseSession with toolCalls := [failedCall, failedCall] })]
        "s1" "can i talk to someone" 1 none).1.escalated = true ∧
    (checkEscalation escCfg
        [("s1", { baseSession with toolCalls := [failedCall, failedCall] })]
        "s1" "can i talk to someone" 1 none).1.reason =
      some "multiple tool failures during session" :=
  toolFailures_reason escCfg _ "s1" "can i talk to someone" 1
    { baseSession with toolCalls := [failedCall, failedCall] }
    rfl rfl (by decide) (by decide) (by decide) (by decide) (by decide) (by decide)
    (by decide) (by decide) (by decide)

/-! Claim C3: the derived multi-intent escalation condition. In the code it
requires strictly more than 3 recorded intents (so at least 4 history
entries), at least 3 of them distinct, and a configured escalation condition
mentioning `cannot determine`. -/

/-- C3 counterexample: a session whose intent history holds exactly 3
distinct intents; the next keyword-free message does not trigger escalation,
because the code demands `intentHistory.length > 3`. -/
theorem threeIntents_no_escalation_counterexample :
    (checkEscalation escCfg
        [("s1", { baseSession with context :=
          { intentHistory := ["SUBSCRIPTION_CANCEL", "ORDER_STATUS", "REFUND_REQUEST"] } })]
        "s1" "hello" 1 none).1.escalated = false ∧
    (["SUBSCRIPTION_CANCEL", "ORDER_STATUS", "REFUND_REQUEST"] : List String).dedup.length
      = 3 := by
  constructor
  · decide
  · decide

/-- C3 amended: the derived condition fires on a keyword-free message only
when more than 3 intents are recorded, at least 3 of them distinct, and some
configured escalation condition mentions `cannot determine`; the reason is
then the multi-intent category (for a message without reason keywords). -/
theorem multiIntent_escalation (ecfg : EscalationConfig) (store : MemoryStore)
    (sid message : String) (now : Int) (sess : Session)
    (hlook : store.getSession sid = some sess)
    (hnesc : sess.context.escalated = false)
    (hcond : (ecfg.conditions.any (fun c => strIncludes (strLower c) "cannot determine")) = true)
    (hlen : 3 < sess.context.intentHistory.length)
    (hdistinct : 3 ≤ sess.context.intentHistory.dedup.length)
    (hk1 : strIncludes (strLower message) "human" = false)
    (hk2 : strIncludes (strLower message) "speak to" = false)
    (hk3 : strIncludes (strLower message) "real person" = false)
    (hk4 : strIncludes (strLower message) "manager" = false)
    (hk5 : strIncludes (strLower message) "supervisor" = false)
    (hk6 : strIncludes (strLower message) "transfer" = false) :
    (checkEscalation ecfg store sid message now none).1.escalated = true ∧
    (checkEscalation ecfg store sid message now none).1.reason =
      some "complex issue requiring multiple intents" := by
  have hderived : derivedEscalation ecfg sess = true := by
    simp only [List.any_eq_true] at hcond
    rcases hcond with ⟨c, hc, hinc⟩
    unfold derivedEscalation
    refine List.any_eq_true.mpr ⟨c, hc, ?_⟩
    simp [hinc, hlen, hdistinct]
  have hreason : determineEscalationReason message sess =
      "complex issue requiring multiple intents" := by
    unfold determineEscalationReason
    simp only [hk1, hk2, hk3, hk4, hk5, hk6]
    simp [hlen]
  unfold checkEscalation
  rw [hlook]
  simp [hnesc, hderived, hreason]

/-- C3 witness: four recorded intents, three distinct, on the default
configuration whose second condition mentions `cannot determine`; the next
message `hello` escalates with the multi-intent reason. -/
theorem multiIntent_escalation_witness :
    (checkEscalation escCfg
        [("s1", { baseSession with context :=
          { intentHistory := ["SUBSCRIPTION_CANCEL", "ORDER_STATUS", "REFUND_REQUEST",
            "SUBSCRIPTION_CANCEL"] } })]
        "s1" "hello" 1 none).1.escalated = true ∧
    (checkEscalation escCfg
        [("s1", { baseSession with context :=
          { intentHistory := ["SUBSCRIPTION_CANCEL", "ORDER_STATUS", "REFUND_REQUEST",
            "SUBSCRIPTION_CANCEL"] } })]
        "s1" "hello" 1 none).1.reason =
      some "complex issue requiring multiple intents" :=
  multiIntent_escalation escCfg _ "s1" "hello" 1
    { baseSession with context :=
      { intentHistory := ["SUBSCRIPTION_CANCEL", "ORDER_STATUS", "REFUND_REQUEST",
        "SUBSCRIPTION_CANCEL"] } }
    rfl rfl (by decide) (by decide) (by decide) (by decide) (by decide) (by decide)
    (by decide) (by decide) (by decide)

/-! Configuration fixtures for the runtime and routing claims. -/

/-- The fallback agent of the generated configuration. -/
def generalAgent : AgentConfig :=
  ⟨"general-support-agent", "You are a helpful support agent.", [], ["general"], []⟩

/-- An order-tracking agent. -/
def orderAgent : AgentConfig :=
  ⟨"order-tracking-agent", "You track orders.", ["shopify_get_order_details"],
    ["order status", "tracking"], []⟩

/-- A routing rule with the default minimum confidence 0.3. -/
def orderRule : RoutingRule :=
  ⟨"order-status", "order-tracking-agent", ⟨["order", "tracking", "where"], 3/10⟩⟩

/-- A rule whose configured minimum confidence exceeds the score a single
keyword match can produce. -/
def strictRule : RoutingRule :=
  ⟨"order-status", "order-tracking-agent", ⟨["order"], 9/10⟩⟩

/-- A small orchestrator configuration. -/
def cfgW : OrchestratorConfig :=
  ⟨[generalAgent, orderAgent], [orderRule], "general-support-agent", escCfg⟩

/-- The same configuration with only the strict rule. -/
def cfgStrict : OrchestratorConfig :=
  ⟨[generalAgent, orderAgent], [strictRule], "general-support-agent", escCfg⟩

/-! Claim C1: the escalation short-circuit of `handleMessage`. -/

/-- C1: for an escalated session, `handleMessage` returns the fixed
escalation message with `escalated = true` and the stored summary, leaves the
store unchanged, and records no pipeline step — in particular neither the
routing step nor any agent-executor invocation happens in that turn. -/
theorem handleMessage_escalated_short_circuit (cfg : OrchestratorConfig)
    (exec : MemoryStore → String → String → MemoryStore × String)
    (store : MemoryStore) (sessionId message : String) (now : Int) (sess : Session)
    (hlook : store.getSession sessionId = some sess)
    (hesc : sess.context.escalated = true) :
    handleMessage cfg exec store sessionId message now =
      .ok ({ sessionId := sessionId
             message := escalatedFixedMessage
             escalated := true
             escalationSummary := sess.context.escalationSummary }, store, []) := by
  have hie : store.isEscalated sessionId = true := by
    unfold MemoryStore.isEscalated
    rw [hlook]
    exact hesc
  unfold handleMessage
  rw [hlook]
  simp [hie]

/-- C1 witness: a follow-up message on the concrete escalated session. -/
theorem handleMessage_escalated_short_circuit_witness :
    handleMessage cfgW (fun st _ _ => (st, "ok")) [("s1", escalatedSession)] "s1"
        "Hello?" 9 =
      .ok ({ sessionId := "s1"
             message := escalatedFixedMessage
             escalated := true
             escalationSummary := escalatedSession.context.escalationSummary },
        [("s1", escalatedSession)], []) :=
  handleMessage_escalated_short_circuit cfgW (fun st _ _ => (st, "ok"))
    [("s1", escalatedSession)] "s1" "Hello?" 9 escalatedSession rfl rfl

/-! Claim C4: the routing loop never selects a rule scoring below its own
minimum confidence. -/

theorem routeFold_sel_ge (agents : List AgentConfig) (message : String)
    (intent : IntentClassification) :
    ∀ (rules : List RoutingRule) (acc : AgentConfig × ℚ × Option RoutingRule),
      (∀ r, acc.2.2 = some r →
        r.conditions.minConfidence ≤ calculateRuleScore message intent r) →
      ∀ r, (rules.foldl (routeStep agents message intent) acc).2.2 = some r →
        r.conditions.minConfidence ≤ calculateRuleScore message intent r := by
  intro rules
  induction rules with
  | nil => intro acc hacc r hr; exact hacc r (by simpa using hr)
  | cons rule rest ih =>
    intro acc hacc r hr
    rw [List.foldl_cons] at hr
    refine ih (routeStep agents message intent acc rule) ?_ r hr
    intro r2 hr2
    simp only [routeStep] at hr2
    by_cases hg : acc.2.1 < calculateRuleScore message intent rule ∧
        rule.conditions.minConfidence ≤ calculateRuleScore message intent rule
    · rw [if_pos hg] at hr2
      cases hfind : agentsGet agents rule.targetAgent with
      | some a =>
        rw [hfind] at hr2
        simp only [Option.some.injEq] at hr2
        subst hr2
        exact hg.2
      | none =>
        rw [hfind] at hr2
        exact hacc r2 hr2
    · rw [if_neg hg] at hr2
      exact hacc r2 hr2

theorem routeFold_all_below (agents : List AgentConfig) (message : String)
    (intent : IntentClassification) :
    ∀ (rules : List RoutingRule) (acc : AgentConfig × ℚ × Option RoutingRule),
      (∀ r ∈ rules, calculateRuleScore message intent r < r.conditions.minConfidence) →
      rules.foldl (routeStep agents message intent) acc = acc := by
  intro rules
  induction rules with
  | nil => intro acc _; rfl
  | cons rule rest ih =>
    intro acc h
    rw [List.foldl_cons]
    have hstep : routeStep agents message intent acc rule = acc := by
      simp only [routeStep]
      rw [if_neg]
      intro hg
      exact absurd hg.2 (not_le.mpr (h rule (by simp)))
    rw [hstep]
    exact ih acc (fun r hr => h r (List.mem_cons_of_mem _ hr))

/-- C4: (1) whenever the selection loop has accepted a rule, the score of that
rule meets its configured minimum confidence — so a rule scoring below its
threshold is never selected, even with the highest raw score; (2) when every
rule scores below its threshold, the loop yields the fallback agent and
selects no rule; (3) `route` then returns the fallback agent (on a session
with no current agent, which excludes the separately specified continuity
override). -/
theorem route_minConfidence_gate (cfg : OrchestratorConfig) (message : String) :
    (∀ r, (routeCore cfg message (classifyMessage message)).2.2 = some r →
      r.conditions.minConfidence ≤
        calculateRuleScore message (classifyMessage message) r)
    ∧ ((∀ r ∈ cfg.routing,
          calculateRuleScore message (classifyMessage message) r <
            r.conditions.minConfidence) →
        routeCore cfg message (classifyMessage message) = (fallbackAgentOf cfg, 0, none))
    ∧ (∀ (store : MemoryStore) (sessionId : String) (sess : Session),
        store.getSession sessionId = some sess →
        sess.context.currentAgent = "" →
        (∀ r ∈ cfg.routing,
          calculateRuleScore message (classifyMessage message) r <
            r.conditions.minConfidence) →
        (route cfg store sessionId message).1.targetAgent = fallbackAgentOf cfg) := by
  refine ⟨?_, ?_, ?_⟩
  · intro r hr
    exact routeFold_sel_ge cfg.agents message (classifyMessage message) cfg.routing _
      (by intro r2 h; simp at h) r hr
  · intro hall
    exact routeFold_all_below cfg.agents message (classifyMessage message) cfg.routing _ hall
  · intro store sessionId sess hlook hcur hall
    have hcore : routeCore cfg message (classifyMessage message) =
        (fallbackAgentOf cfg, 0, none) :=
      routeFold_all_below cfg.agents message (classifyMessage message) cfg.routing _ hall
    simp only [route, hlook, hcur, ne_eq, not_true_eq_false, if_false, hcore]

/-- C4 witness: a configuration whose only rule has the highest (indeed the
only) raw score, 0.2 from one keyword match, yet sits below its configured
minimum confidence 0.9: the loop selects nothing and `route` falls back. -/
theorem route_minConfidence_gate_witness :
    routeCore cfgStrict "order please" (classifyMessage "order please") =
      (fallbackAgentOf cfgStrict, 0, none) ∧
    (route cfgStrict [("s1", baseSession)] "s1" "order please").1.targetAgent =
      fallbackAgentOf cfgStrict ∧
    calculateRuleScore "order please" (classifyMessage "order please") strictRule <
      strictRule.conditions.minConfidence := by
  have hscore : calculateRuleScore "order please" (classifyMessage "order please")
      strictRule = min ((0 : ℚ) + 1/5) 1 := by
    unfold calculateRuleScore strictRule
    simp only [List.foldl_cons, List.foldl_nil,
      show strIncludes (strLower "order please") (strLower "order") = true from by decide,
      if_true]
    rw [if_neg (by decide :
      ¬ toKebab (classifyMessage "order please").primary = "order-status")]
    rw [if_neg (by decide : ¬ ((classifyMessage "order please").secondary.any
      (fun sc => toKebab sc == "order-status")) = true)]
  have hall : ∀ r ∈ cfgStrict.routing,
      calculateRuleScore "order please" (classifyMessage "order please") r <
        r.conditions.minConfidence := by
    intro r hr
    simp only [cfgStrict, List.mem_cons, List.not_mem_nil, or_false] at hr
    subst hr
    rw [hscore]
    show min ((0 : ℚ) + 1/5) 1 < 9/10
    norm_num
  exact ⟨(route_minConfidence_gate cfgStrict "order please").2.1 hall,
    (route_minConfidence_gate cfgStrict "order please").2.2 [("s1", baseSession)] "s1"
      baseSession rfl rfl hall,
    hscore ▸ (hall strictRule (by simp [cfgStrict]))⟩

/-! Claim C5: the circuit-breaker state machine. First the per-circuit fold
lemmas, then the registry plumbing, then the claim itself. -/

theorem foldRF_noTrip (cfg : CircuitBreakerConfig) :
    ∀ (ts : List Int) (c : CircuitStats),
      c.state = .CLOSED →
      (∀ t ∈ ts, ∀ u ∈ c.recentFailures ++ ts, t - u < cfg.monitoringWindowMs) →
      c.recentFailures.length + ts.length < cfg.failureThreshold →
      ts.foldl (recordFailureStats cfg) c =
        { c with
          recentFailures := c.recentFailures ++ ts
          failures := c.failures + ts.length
          lastFailure := ts.getLastD c.lastFailure } := by
  intro ts
  induction ts with
  | nil =>
    intro c hstate _ _
    simp [List.getLastD]
  | cons t0 rest ih =>
    intro c hstate hwin hlen
    obtain ⟨st, f, su, lf, lsc, rf⟩ := c
    simp only at hstate hwin hlen
    subst hstate
    simp only [List.length_cons] at hlen
    rw [List.foldl_cons]
    have hfilter : rf.filter (fun u => decide (t0 - u < cfg.monitoringWindowMs)) = rf := by
      apply List.filter_eq_self.mpr
      intro u hu
      exact decide_eq_true (hwin t0 (by simp) u (List.mem_append_left _ hu))
    have hthresh : ¬ cfg.failureThreshold ≤ (rf.filter
        (fun u => decide (t0 - u < cfg.monitoringWindowMs)) ++ [t0]).length := by
      rw [hfilter]
      simp only [List.length_append, List.length_cons, List.length_nil]
      omega
    have hstep : recordFailureStats cfg ⟨.CLOSED, f, su, lf, lsc, rf⟩ t0 =
        ⟨.CLOSED, f + 1, su, t0, lsc, rf ++ [t0]⟩ := by
      unfold recordFailureStats
      simp only []
      rw [if_neg hthresh]
      simp [hfilter]
    rw [hstep]
    rw [ih ⟨.CLOSED, f + 1, su, t0, lsc, rf ++ [t0]⟩ rfl ?_ ?_]
    · simp only [List.append_assoc, List.singleton_append, List.length_cons,
        List.getLastD_cons]
      congr 1
      omega
    · intro t ht u hu
      refine hwin t (by simp [ht]) u ?_
      simp only [List.append_assoc, List.singleton_append] at hu
      exact hu
    · simp only [List.length_append, List.length_cons, List.length_nil] at hlen ⊢
      omega

theorem foldRF_trip (cfg : CircuitBreakerConfig) (ts : List Int) (c : CircuitStats)
    (hstate : c.state = .CLOSED) (hempty : c.recentFailures = [])
    (hne : ts ≠ []) (hlen : ts.length = cfg.failureThreshold)
    (hwin : ∀ t ∈ ts, ∀ u ∈ ts, t - u < cfg.monitoringWindowMs) :
    (ts.foldl (recordFailureStats cfg) c).state = .OPEN ∧
    (ts.foldl (recordFailureStats cfg) c).lastStateChange = ts.getLastD 0 := by
  obtain ⟨st, f, su, lf, lsc, rf⟩ := c
  simp only at hstate hempty
  subst hstate
  subst hempty
  obtain ⟨init, last, hdecomp⟩ : ∃ init last, ts = init ++ [last] :=
    ⟨ts.dropLast, ts.getLast hne, (List.dropLast_append_getLast hne).symm⟩
  subst hdecomp
  rw [List.foldl_append]
  have hsub : init ⊆ init ++ [last] := List.subset_append_left _ _
  have hlast : last ∈ init ++ [last] := List.mem_append_right _ (by simp)
  simp only [List.length_append, List.length_cons, List.length_nil] at hlen
  have hinit : init.foldl (recordFailureStats cfg) ⟨.CLOSED, f, su, lf, lsc, []⟩ =
      ⟨.CLOSED, f + init.length, su, init.getLastD lf, lsc, init⟩ := by
    have h := foldRF_noTrip cfg init ⟨.CLOSED, f, su, lf, lsc, []⟩ rfl
      (by
        intro t ht u hu
        simp only [List.nil_append] at hu
        exact hwin t (hsub ht) u (hsub hu))
      (by simp only [List.length_nil]; omega)
    simpa using h
  rw [hinit]
  simp only [List.foldl_cons, List.foldl_nil]
  have hfilter : init.filter (fun u => decide (last - u < cfg.monitoringWindowMs)) = init := by
    apply List.filter_eq_self.mpr
    intro u hu
    exact decide_eq_true (hwin last hlast u (hsub hu))
  have hcount : cfg.failureThreshold ≤
      (init.filter (fun u => decide (last - u < cfg.monitoringWindowMs)) ++ [last]).length := by
    rw [hfilter]
    simp only [List.length_append, List.length_cons, List.length_nil]
    omega
  unfold recordFailureStats
  simp only []
  rw [if_pos hcount]
  exact ⟨rfl, (List.getLastD_concat _ _ _).symm⟩

theorem foldRS_noClose (cfg : CircuitBreakerConfig) :
    ∀ (us : List Int) (c : CircuitStats),
      c.state = .HALF_OPEN →
      c.successes + us.length < cfg.successThreshold →
      us.foldl (recordSuccessStats cfg) c = { c with successes := c.successes + us.length } := by
  intro us
  induction us with
  | nil => intro c hstate _; simp
  | cons u0 rest ih =>
    intro c hstate hlen
    obtain ⟨st, f, su, lf, lsc, rf⟩ := c
    simp only at hstate hlen
    subst hstate
    simp only [List.length_cons] at hlen
    rw [List.foldl_cons]
    have hstep : recordSuccessStats cfg ⟨.HALF_OPEN, f, su, lf, lsc, rf⟩ u0 =
        ⟨.HALF_OPEN, f, su + 1, lf, lsc, rf⟩ := by
      unfold recordSuccessStats
      simp only []
      rw [if_neg (by omega)]
    rw [hstep]
    rw [ih ⟨.HALF_OPEN, f, su + 1, lf, lsc, rf⟩ rfl
      (show su + 1 + rest.length < cfg.successThreshold by omega)]
    simp only [List.length_cons]
    congr 1
    omega

theorem foldRS_close (cfg : CircuitBreakerConfig) (us : List Int) (c : CircuitStats)
    (hstate : c.state = .HALF_OPEN) (hzero : c.successes = 0)
    (hpos : 1 ≤ cfg.successThreshold) (hlen : us.length = cfg.successThreshold) :
    (us.foldl (recordSuccessStats cfg) c).state = .CLOSED ∧
    (us.foldl (recordSuccessStats cfg) c).failures = 0 := by
  obtain ⟨st, f, su, lf, lsc, rf⟩ := c
  simp only at hstate hzero
  subst hstate
  subst hzero
  have hne : us ≠ [] := by
    intro h
    rw [h] at hlen
    simp only [List.length_nil] at hlen
    omega
  obtain ⟨init, last, hdecomp⟩ : ∃ init last, us = init ++ [last] :=
    ⟨us.dropLast, us.getLast hne, (List.dropLast_append_getLast hne).symm⟩
  subst hdecomp
  rw [List.foldl_append]
  simp only [List.length_append, List.length_cons, List.length_nil] at hlen
  have hinit : init.foldl (recordSuccessStats cfg) ⟨.HALF_OPEN, f, 0, lf, lsc, rf⟩ =
      ⟨.HALF_OPEN, f, 0 + init.length, lf, lsc, rf⟩ := by
    have h := foldRS_noClose cfg init ⟨.HALF_OPEN, f, 0, lf, lsc, rf⟩ rfl
      (by simp only []; omega)
    simpa using h
  rw [hinit]
  simp only [List.foldl_cons, List.foldl_nil]
  have hdone : cfg.successThreshold ≤ 0 + init.length + 1 := by omega
  unfold recordSuccessStats
  simp only []
  rw [if_pos hdone]
  exact ⟨rfl, rfl⟩

theorem setCircuit_lookup (cb : CircuitBreaker) (sid : String) (c : CircuitStats) :
    List.lookup sid (cb.setCircuit sid c).circuits = some c := by
  unfold CircuitBreaker.setCircuit
  by_cases h : (List.lookup sid cb.circuits).isSome
  · rw [if_pos h]
    exact lookup_replace sid c cb.circuits h
  · rw [if_neg h]
    refine lookup_append_absent sid c cb.circuits ?_
    cases hl : List.lookup sid cb.circuits with
    | none => rfl
    | some v => rw [hl] at h; simp at h

theorem setCircuit_config (cb : CircuitBreaker) (sid : String) (c : CircuitStats) :
    (cb.setCircuit sid c).config = cb.config := by
  unfold CircuitBreaker.setCircuit
  by_cases h : (List.lookup sid cb.circuits).isSome
  · rw [if_pos h]
  · rw [if_neg h]

theorem peek_of_mem (cb : CircuitBreaker) (sid : String) (now : Int) (c : CircuitStats)
    (hmem : List.lookup sid cb.circuits = some c) : cb.peek sid now = c := by
  unfold CircuitBreaker.peek
  rw [hmem]
  rfl

/-- Record failures for one service at the given sequence of times. -/
def brFailSeq (cb : CircuitBreaker) (serviceId : String) (ts : List Int) :
    CircuitBreaker :=
  ts.foldl (fun b t => b.recordFailure serviceId t) cb

/-- Record successes for one service at the given sequence of times. -/
def brSuccessSeq (cb : CircuitBreaker) (serviceId : String) (us : List Int) :
    CircuitBreaker :=
  us.foldl (fun b t => b.recordSuccess serviceId t) cb

theorem brFailSeq_lookup (serviceId : String) :
    ∀ (ts : List Int) (cb : CircuitBreaker) (c : CircuitStats),
      List.lookup serviceId cb.circuits = some c →
      List.lookup serviceId (brFailSeq cb serviceId ts).circuits =
        some (ts.foldl (recordFailureStats cb.config) c) ∧
      (brFailSeq cb serviceId ts).config = cb.config := by
  intro ts
  induction ts with
  | nil => intro cb c hmem; exact ⟨by simpa [brFailSeq] using hmem, rfl⟩
  | cons t0 rest ih =>
    intro cb c hmem
    have hstep_mem : List.lookup serviceId (cb.recordFailure serviceId t0).circuits =
        some (recordFailureStats cb.config c t0) := by
      unfold CircuitBreaker.recordFailure
      rw [peek_of_mem cb serviceId t0 c hmem]
      exact setCircuit_lookup cb serviceId _
    have hstep_cfg : (cb.recordFailure serviceId t0).config = cb.config :=
      setCircuit_config cb serviceId _
    have hrest := ih (cb.recordFailure serviceId t0) _ hstep_mem
    rw [hstep_cfg] at hrest
    unfold brFailSeq at hrest ⊢
    rw [List.foldl_cons]
    exact ⟨hrest.1, hrest.2⟩

theorem brSuccessSeq_lookup (serviceId : String) :
    ∀ (us : List Int) (cb : CircuitBreaker) (c : CircuitStats),
      List.lookup serviceId cb.circuits = some c →
      List.lookup serviceId (brSuccessSeq cb serviceId us).circuits =
        some (us.foldl (recordSuccessStats cb.config) c) ∧
      (brSuccessSeq cb serviceId us).config = cb.config := by
  intro us
  induction us with
  | nil => intro cb c hmem; exact ⟨by simpa [brSuccessSeq] using hmem, rfl⟩
  | cons u0 rest ih =>
    intro cb c hmem
    have hstep_mem : List.lookup serviceId (cb.recordSuccess serviceId u0).circuits =
        some (recordSuccessStats cb.config c u0) := by
      unfold CircuitBreaker.recordSuccess
      rw [peek_of_mem cb serviceId u0 c hmem]
      exact setCircuit_lookup cb serviceId _
    have hstep_cfg : (cb.recordSuccess serviceId u0).config = cb.config :=
      setCircuit_config cb serviceId _
    have hrest := ih (cb.recordSuccess serviceId u0) _ hstep_mem
    rw [hstep_cfg] at hrest
    unfold brSuccessSeq at hrest ⊢
    rw [List.foldl_cons]
    exact ⟨hrest.1, hrest.2⟩

/-- C5: the circuit breaker of a tracked service satisfies the claimed state
machine: (a) `failureThreshold` failures whose timestamps all fall within the
monitoring window open the circuit, stamping the transition time; (b) while
OPEN and before `resetTimeoutMs` has elapsed since the transition,
`canExecute` returns false and changes nothing; (c) once `resetTimeoutMs` has
elapsed, exactly the next `canExecute` call moves the circuit to HALF_OPEN
(resetting the success counter) and returns true; (d) in HALF_OPEN further
`canExecute` calls return true without another transition; (e) a single
`recordFailure` in HALF_OPEN reopens the circuit; (f) `successThreshold`
consecutive `recordSuccess` calls in HALF_OPEN close it and reset the failure
counter. -/
theorem circuitBreaker_state_machine (cb : CircuitBreaker) (serviceId : String)
    (c : CircuitStats) (hmem : List.lookup serviceId cb.circuits = some c) :
    ((c.state = .CLOSED ∧ c.recentFailures = []) →
      ∀ ts : List Int, ts ≠ [] → ts.length = cb.config.failureThreshold →
        (∀ t ∈ ts, ∀ u ∈ ts, t - u < cb.config.monitoringWindowMs) →
        ∃ c2, List.lookup serviceId (brFailSeq cb serviceId ts).circuits = some c2 ∧
          c2.state = .OPEN ∧ c2.lastStateChange = ts.getLastD 0)
    ∧ (∀ now : Int, c.state = .OPEN →
        now - c.lastStateChange < cb.config.resetTimeoutMs →
        (cb.canExecute serviceId now).1 = false ∧
        List.lookup serviceId ((cb.canExecute serviceId now).2).circuits = some c)
    ∧ (∀ now : Int, c.state = .OPEN →
        cb.config.resetTimeoutMs ≤ now - c.lastStateChange →
        (cb.canExecute serviceId now).1 = true ∧
        List.lookup serviceId ((cb.canExecute serviceId now).2).circuits =
          some { c with state := .HALF_OPEN, lastStateChange := now, successes := 0 })
    ∧ (∀ now : Int, c.state = .HALF_OPEN →
        (cb.canExecute serviceId now).1 = true ∧
        List.lookup serviceId ((cb.canExecute serviceId now).2).circuits = some c)
    ∧ (∀ now : Int, c.state = .HALF_OPEN →
        ∃ c2, List.lookup serviceId (cb.recordFailure serviceId now).circuits = some c2 ∧
          c2.state = .OPEN ∧ c2.lastStateChange = now)
    ∧ (c.state = .HALF_OPEN → c.successes = 0 → 1 ≤ cb.config.successThreshold →
        ∀ us : List Int, us.length = cb.config.successThreshold →
        ∃ c2, List.lookup serviceId (brSuccessSeq cb serviceId us).circuits = some c2 ∧
          c2.state = .CLOSED ∧ c2.failures = 0) := by
  refine ⟨?_, ?_, ?_, ?_, ?_, ?_⟩
  · rintro ⟨hstate, hempty⟩ ts hne hlen hwin
    obtain ⟨hfold, _⟩ := brFailSeq_lookup serviceId ts cb c hmem
    exact ⟨_, hfold, foldRF_trip cb.config ts c hstate hempty hne hlen hwin⟩
  · intro now hstate htime
    unfold CircuitBreaker.canExecute
    rw [peek_of_mem cb serviceId now c hmem]
    have hstats : canExecuteStats cb.config c now = (false, c) := by
      obtain ⟨st, f, su, lf, lsc, rf⟩ := c
      simp only at hstate
      subst hstate
      unfold canExecuteStats
      simp only []
      rw [if_neg (not_le.mpr htime)]
    rw [hstats]
    exact ⟨rfl, setCircuit_lookup cb serviceId c⟩
  · intro now hstate htime
    unfold CircuitBreaker.canExecute
    rw [peek_of_mem cb serviceId now c hmem]
    have hstats : canExecuteStats cb.config c now =
        (true, { c with state := .HALF_OPEN, lastStateChange := now, successes := 0 }) := by
      obtain ⟨st, f, su, lf, lsc, rf⟩ := c
      simp only at hstate
      subst hstate
      unfold canExecuteStats
      simp only []
      rw [if_pos htime]
    rw [hstats]
    exact ⟨rfl, setCircuit_lookup cb serviceId _⟩
  · intro now hstate
    unfold CircuitBreaker.canExecute
    rw [peek_of_mem cb serviceId now c hmem]
    have hstats : canExecuteStats cb.config c now = (true, c) := by
      obtain ⟨st, f, su, lf, lsc, rf⟩ := c
      simp only at hstate
      subst hstate
      unfold canExecuteStats
      simp only []
    rw [hstats]
    exact ⟨rfl, setCircuit_lookup cb serviceId c⟩
  · intro now hstate
    unfold CircuitBreaker.recordFailure
    rw [peek_of_mem cb serviceId now c hmem]
    refine ⟨recordFailureStats cb.config c now, setCircuit_lookup cb serviceId _, ?_, ?_⟩
    all_goals
      obtain ⟨st, f, su, lf, lsc, rf⟩ := c
      simp only at hstate
      subst hstate
      unfold recordFailureStats
      simp only []
  · intro hstate hzero hpos us hlen
    obtain ⟨hfold, _⟩ := brSuccessSeq_lookup serviceId us cb c hmem
    exact ⟨_, hfold, foldRS_close cb.config us c hstate hzero hpos hlen⟩

/-- The tool circuit-breaker configuration (`toolCircuitBreaker`):
failure threshold 3 and reset timeout 15000 over the defaults. -/
def toolCBConfig : CircuitBreakerConfig :=
  { DEFAULT_CIRCUIT_CONFIG with failureThreshold := 3, resetTimeoutMs := 15000 }

/-- An OPEN circuit fixture that tripped at time 30. -/
def openCircuit : CircuitStats :=
  ⟨.OPEN, 3, 0, 30, 30, [10, 20, 30]⟩

/-- A HALF_OPEN circuit fixture probing since time 20000. -/
def halfOpenCircuit : CircuitStats :=
  ⟨.HALF_OPEN, 3, 0, 30, 20000, [10, 20, 30]⟩

/-- C5 witness: the full lifecycle at the tool breaker configuration — three
in-window failures open a fresh circuit at time 30; at time 100 the open
circuit rejects; at time 20000 the next call half-opens it; a half-open
circuit admits calls, reopens on one failure, and closes after two
successes. -/
theorem circuitBreaker_state_machine_witness :
    (∃ c2, List.lookup "svc"
        (brFailSeq ⟨[("svc", freshCircuit 0)], toolCBConfig⟩ "svc" [10, 20, 30]).circuits =
        some c2 ∧ c2.state = .OPEN ∧ c2.lastStateChange = [10, 20, 30].getLastD 0) ∧
    ((CircuitBreaker.canExecute ⟨[("svc", openCircuit)], toolCBConfig⟩ "svc" 100).1 = false ∧
      List.lookup "svc"
        ((CircuitBreaker.canExecute ⟨[("svc", openCircuit)], toolCBConfig⟩ "svc" 100).2).circuits =
        some openCircuit) ∧
    ((CircuitBreaker.canExecute ⟨[("svc", openCircuit)], toolCBConfig⟩ "svc" 20000).1 = true ∧
      List.lookup "svc"
        ((CircuitBreaker.canExecute ⟨[("svc", openCircuit)], toolCBConfig⟩ "svc" 20000).2).circuits =
        some { openCircuit with state := .HALF_OPEN, lastStateChange := 20000, successes := 0 }) ∧
    ((CircuitBreaker.canExecute ⟨[("svc", halfOpenCircuit)], toolCBConfig⟩ "svc" 20100).1 = true ∧
      List.lookup "svc"
        ((CircuitBreaker.canExecute ⟨[("svc", halfOpenCircuit)], toolCBConfig⟩ "svc"
          20100).2).circuits = some halfOpenCircuit) ∧
    (∃ c2, List.lookup "svc"
        ((CircuitBreaker.recordFailure ⟨[("svc", halfOpenCircuit)], toolCBConfig⟩ "svc"
          20100).circuits) = some c2 ∧ c2.state = .OPEN ∧ c2.lastStateChange = 20100) ∧
    (∃ c2, List.lookup "svc"
        (brSuccessSeq ⟨[("svc", halfOpenCircuit)], toolCBConfig⟩ "svc"
          [20100, 20200]).circuits = some c2 ∧ c2.state = .CLOSED ∧ c2.failures = 0) :=
  ⟨(circuitBreaker_state_machine ⟨[("svc", freshCircuit 0)], toolCBConfig⟩ "svc"
      (freshCircuit 0) rfl).1 ⟨rfl, rfl⟩ [10, 20, 30] (by decide) (by decide) (by decide),
   (circuitBreaker_state_machine ⟨[("svc", openCircuit)], toolCBConfig⟩ "svc"
      openCircuit rfl).2.1 100 rfl (by decide),
   (circuitBreaker_state_machine ⟨[("svc", openCircuit)], toolCBConfig⟩ "svc"
      openCircuit rfl).2.2.1 20000 rfl (by decide),
   (circuitBreaker_state_machine ⟨[("svc", halfOpenCircuit)], toolCBConfig⟩ "svc"
      halfOpenCircuit rfl).2.2.2.1 20100 rfl,
   (circuitBreaker_state_machine ⟨[("svc", halfOpenCircuit)], toolCBConfig⟩ "svc"
      halfOpenCircuit rfl).2.2.2.2.1 20100 rfl,
   (circuitBreaker_state_machine ⟨[("svc", halfOpenCircuit)], toolCBConfig⟩ "svc"
      halfOpenCircuit rfl).2.2.2.2.2 rfl rfl (by decide) [20100, 20200] (by decide)⟩

/-! Claim C6: retry exhaustion behaviour of `withRetry`. -/

theorem retryLoop_exhausts (cfg : RetryConfig E) (fn : Nat → Except E T) (es : Nat → E)
    (hfail : ∀ i, fn i = .error (es i)) (hretry : ∀ i, cfg.retryOn (es i) = true) :
    ∀ (k done : Nat) (delay : ℚ) (slept : List ℚ),
      retryLoop cfg fn (k + 1) done delay slept =
        ⟨.error (some (es (done + k))), done + k + 1,
          slept ++ (List.range k).map (fun j => (delayUpdate cfg)^[j] delay)⟩ := by
  intro k
  induction k with
  | zero =>
    intro done delay slept
    simp only [retryLoop, hfail done, hretry done, Bool.not_true, Bool.false_or]
    simp
  | succ m ih =>
    intro done delay slept
    have hguard : (!(cfg.retryOn (es done)) || ((m + 1 : Nat) == 0)) = false := by
      rw [hretry done]
      simp
    rw [retryLoop, hfail done]
    simp only [hguard, Bool.false_eq_true, if_false]
    rw [ih (done + 1) (delayUpdate cfg delay) (slept ++ [delay])]
    have hidx : done + 1 + m = done + (m + 1) := by omega
    have hlist : (List.range (m + 1)).map (fun j => (delayUpdate cfg)^[j] delay) =
        delay :: (List.range m).map (fun j => (delayUpdate cfg)^[j] (delayUpdate cfg delay)) := by
      rw [List.range_succ_eq_map, List.map_cons, List.map_map]
      refine congrArg₂ _ rfl ?_
      refine List.map_congr_left ?_
      intro j _
      exact Function.iterate_succ_apply (delayUpdate cfg) j delay
    rw [hidx, hlist]
    simp [List.append_assoc]

/-- C6: a function that always fails with errors accepted by the retry
predicate is invoked exactly `maxAttempts` times; the inter-attempt delays
follow `delay := min(delay * backoffMultiplier, maxDelayMs)` starting from
`initialDelayMs` (the `delaySeq` recurrence); and the last error is re-raised
unchanged after the final attempt. -/
theorem withRetry_exhausts (cfg : RetryConfig E) (fn : Nat → Except E T) (es : Nat → E)
    (hfail : ∀ i, fn i = .error (es i)) (hretry : ∀ i, cfg.retryOn (es i) = true)
    (hpos : 1 ≤ cfg.maxAttempts) :
    withRetry cfg fn =
      ⟨.error (some (es (cfg.maxAttempts - 1))), cfg.maxAttempts,
        (List.range (cfg.maxAttempts - 1)).map (delaySeq cfg)⟩ := by
  obtain ⟨k, hk⟩ : ∃ k, cfg.maxAttempts = k + 1 := ⟨cfg.maxAttempts - 1, by omega⟩
  unfold withRetry
  rw [hk]
  rw [retryLoop_exhausts cfg fn es hfail hretry k 0 cfg.initialDelayMs []]
  simp only [Nat.zero_add, List.nil_append, Nat.add_sub_cancel]
  rfl

/-- C6 witness: the tool retry configuration (`maxAttempts = 2`,
`initialDelayMs = 500`) with a call that always throws a network error: two
invocations, one 500 ms backoff sleep, and the same error re-raised. -/
theorem withRetry_exhausts_witness :
    withRetry toolRetryConfig (fun _ => (.error "network down" : Except String Unit)) =
      ⟨.error (some "network down"), 2, [(500 : ℚ)]⟩ := by
  rw [withRetry_exhausts toolRetryConfig
    (fun _ => (.error "network down" : Except String Unit))
    (fun _ => "network down") (fun _ => rfl)
    (fun _ => (by decide : toolRetryOn "network down" = true)) (by decide)]
  rfl

/-! Claim C7: tool-call validation precedes the circuit breaker and the
network. -/

/-- C7: (1) a tool call whose parameters fail schema validation returns the
retryable validation failure immediately — the circuit breaker value is
returned untouched and no HTTP request is made; (2) when the circuit for the
handle is open and its reset timeout has not elapsed, `execute` returns the
rate-limited-style circuit-open failure, again with no HTTP request. -/
theorem toolClient_validation_first (catalog : List ToolDefinition)
    (cb : CircuitBreaker) (now : Int) (http : Nat → Except String ToolCallResult)
    (handle : String) (params : List (String × JValue)) :
    (∀ tool errMsg, getToolByHandle catalog handle = some tool →
      validateParams tool params = some errMsg →
      ToolClient.execute catalog cb now http handle params =
        ⟨validationFailedResult errMsg, cb, 0⟩ ∧
      (validationFailedResult errMsg).success = false ∧
      (validationFailedResult errMsg).retryable = some true)
    ∧ (∀ tool c, getToolByHandle catalog handle = some tool →
        validateParams tool params = none →
        List.lookup handle cb.circuits = some c →
        c.state = .OPEN → now - c.lastStateChange < cb.config.resetTimeoutMs →
        (ToolClient.execute catalog cb now http handle params).result =
          circuitOpenResult handle ∧
        (ToolClient.execute catalog cb now http handle params).httpCalls = 0) := by
  constructor
  · intro tool errMsg hfind hval
    refine ⟨?_, rfl, rfl⟩
    unfold ToolClient.execute
    rw [hfind]
    simp only []
    rw [hval]
  · intro tool c hfind hval hmem hstate htime
    have hgate : cb.canExecute handle now = (false, cb.setCircuit handle c) := by
      unfold CircuitBreaker.canExecute
      rw [peek_of_mem cb handle now c hmem]
      have hstats : canExecuteStats cb.config c now = (false, c) := by
        obtain ⟨st, f, su, lf, lsc, rf⟩ := c
        simp only at hstate
        subst hstate
        unfold canExecuteStats
        simp only []
        rw [if_neg (not_le.mpr htime)]
      rw [hstats]
    unfold ToolClient.execute
    rw [hfind]
    simp only []
    rw [hval]
    simp [hgate]

/-- The `shopify_get_order_details` tool definition of the static catalog. -/
def orderDetailsTool : ToolDefinition :=
  { handle := "shopify_get_order_details"
    description := "Get order details by order number"
    endpoint := "/hackhaton/get_order_details"
    params := [⟨"orderId", "string", true, "Order identifier starting with #", none⟩] }

/-- C7 witness: a missing required `orderId` returns the retryable
validation failure with the breaker untouched and zero HTTP calls; with
valid parameters but an open circuit (70 ms after the trip, far below the
15 s reset timeout) the call is rejected without a network request. -/
theorem toolClient_validation_first_witness :
    (ToolClient.execute [orderDetailsTool] ⟨[], toolCBConfig⟩ 0
        (fun _ => .error "network") "shopify_get_order_details" [] =
      ⟨validationFailedResult "Missing required parameter: orderId",
        ⟨[], toolCBConfig⟩, 0⟩) ∧
    ((ToolClient.execute [orderDetailsTool]
        ⟨[("shopify_get_order_details", openCircuit)], toolCBConfig⟩ 100
        (fun _ => .error "network") "shopify_get_order_details"
        [("orderId", JValue.vStr "#NP1234567")]).result =
      circuitOpenResult "shopify_get_order_details") ∧
    ((ToolClient.execute [orderDetailsTool]
        ⟨[("shopify_get_order_details", openCircuit)], toolCBConfig⟩ 100
        (fun _ => .error "network") "shopify_get_order_details"
        [("orderId", JValue.vStr "#NP1234567")]).httpCalls = 0) := by
  refine ⟨((toolClient_validation_first [orderDetailsTool] ⟨[], toolCBConfig⟩ 0
      (fun _ => .error "network") "shopify_get_order_details" []).1
      orderDetailsTool "Missing required parameter: orderId" rfl rfl).1, ?_, ?_⟩
  · exact ((toolClient_validation_first [orderDetailsTool]
      ⟨[("shopify_get_order_details", openCircuit)], toolCBConfig⟩ 100
      (fun _ => .error "network") "shopify_get_order_details"
      [("orderId", JValue.vStr "#NP1234567")]).2 orderDetailsTool openCircuit
      rfl rfl rfl rfl (by decide)).1
  · exact ((toolClient_validation_first [orderDetailsTool]
      ⟨[("shopify_get_order_details", openCircuit)], toolCBConfig⟩ 100
      (fun _ => .error "network") "shopify_get_order_details"
      [("orderId", JValue.vStr "#NP1234567")]).2 orderDetailsTool openCircuit
      rfl rfl rfl rfl (by decide)).2

end MAS
